import Mathlib

/-!
# Spider Game (supage) : the fixed-step player update

A shallow embedding of `src/code/supage/supage.c` (the data model, `minigame_init`,
`supage_fixedloop_playing` and `minigame_fixedloop`) together with theorems about the
per-player state machine, the position integration and the displayed-score animation.

Conventions of the embedding:

* C `float` values are rationals (`ℚ`); there is no NaN and no infinity. The product
  `stick_x * 0.05f` of line 244 is the binary32 product: `0.05f` is `13421773 / 2 ^ 28` and
  the exact product is rounded to 24 significant bits, to nearest, ties to even
  (`float_mul_0_05`). The additions and products of the position integration (lines
  256-257) are taken exactly.
* C `unsigned` is modelled by `Nat`; `++` and `--` are taken modulo `2 ^ 32`.
* C `bool` and one-bit button fields are `Bool`.
* `int8_t` is modelled by `Int`; `abs` is `Int.natAbs`, which is exact on the `int8_t`
  range. The theorems hold for every `Int`, hence for every `int8_t`.
* The host function `minigame_end` returns to its caller and does not touch the context;
  the calls made by one pass of the player loop are recorded as the list of the slot
  indices whose iteration made the call.
-/

namespace Supage

/-! ## Constants -/

def SUPAGE_MAX_PLAYERS : Nat := 4

def SUPAGE_INPUT_DEADZONE : Nat := 5

def SUPAGE_INPUT_PULL_MIN : Nat := 20

def SUPAGE_INPUT_PULL_MAX : Nat := 60

def SUPAGE_INPUT_PULL_RANGE : Nat := SUPAGE_INPUT_PULL_MAX - SUPAGE_INPUT_PULL_MIN

def SUPAGE_BALLS_PER_PLAYER : Nat := 3

/-- Number of values of a C `unsigned` on the target (32 bits). -/
def UNSIGNED_MOD : Nat := 4294967296

/-- The C statement `n++` on an `unsigned`. -/
def unsigned_inc (n : Nat) : Nat := (n + 1) % UNSIGNED_MOD

/-- The C statement `n--` on an `unsigned`: 0 wraps to `2 ^ 32 - 1`. -/
def unsigned_dec (n : Nat) : Nat := (n + (UNSIGNED_MOD - 1)) % UNSIGNED_MOD

/-! ## Single-precision product -/

/-- Number of binary digits of `n`, computed with `fuel` halvings at most. -/
def bit_length_aux : Nat → Nat → Nat
  | 0, _ => 0
  | fuel + 1, n => if n = 0 then 0 else bit_length_aux fuel (n / 2) + 1

/-- Number of binary digits of `n` (0 for 0). -/
def bit_length (n : Nat) : Nat := bit_length_aux n n

/-- The natural number `m` rounded to 24 significant binary digits, to nearest, ties to
even: the significand rounding of binary32. A number of at most 24 digits is unchanged. -/
def round_to_24_bits (m : Nat) : Nat :=
  let shift := bit_length m - 24
  let q := m / 2 ^ shift
  let r := m % 2 ^ shift
  if 2 * r > 2 ^ shift ∨ (2 * r = 2 ^ shift ∧ q % 2 = 1) then (q + 1) * 2 ^ shift
  else q * 2 ^ shift

/-- The value of the C expression `stick_x * 0.05f` (line 244). The stick is converted to
`float`, which is exact for an `int8_t`; the constant `0.05f` is the binary32 number
`13421773 / 2 ^ 28`; the exact product `stick_x * 13421773 / 2 ^ 28` is rounded to
binary32. For an `int8_t` stick the product is 0 or has magnitude between 0.05 and 6.4,
inside the normal range of binary32, so only the significand is rounded. -/
def float_mul_0_05 (stick_x : Int) : ℚ :=
  if stick_x < 0 then
    -((round_to_24_bits (stick_x.natAbs * 13421773) : ℚ) / 268435456)
  else
    (round_to_24_bits (stick_x.natAbs * 13421773) : ℚ) / 268435456

/-! ## Data model -/

/-- The enum `supage_state`. -/
inductive supage_state where
  | SPG_STATE_INVALID
  | SPG_STATE_INIT
  | SPG_STATE_INSTRUCTIONS
  | SPG_STATE_INTRO
  | SPG_STATE_PLAYING
  | SPG_STATE_ENDING
  | SPG_STATE_CLEANUP
  | SPG_STATE_SIZE
  deriving DecidableEq, Repr

/-- The enum `supage_player_state`. -/
inductive supage_player_state where
  | SPG_PLAYER_STATE_INVALID
  | SPG_PLAYER_STATE_IDLE
  | SPG_PLAYER_STATE_PULL_START
  | SPG_PLAYER_STATE_PULL_ACTIVE
  | SPG_PLAYER_STATE_PULL_RELEASE
  | SPG_PLAYER_STATE_MOVING
  | SPG_PLAYER_STATE_SIZE
  deriving DecidableEq, Repr

/-- The enum `supage_direction`. -/
inductive supage_direction where
  | SUPAGE_DIRECTION_NONE
  | SUPAGE_DIRECTION_CEILING
  | SUPAGE_DIRECTION_FLOOR
  | SUPAGE_DIRECTION_WEST
  | SUPAGE_DIRECTION_EAST
  | SUPAGE_DIRECTION_SIZE
  deriving DecidableEq, Repr

open supage_state supage_player_state supage_direction

/-- The library type `color_t`: four 8-bit channels. -/
structure color_t where
  r : Nat
  g : Nat
  b : Nat
  a : Nat
  deriving DecidableEq, Repr

/-- The button bits of the library type `joypad_inputs_t` that the program reads. -/
structure joypad_buttons_t where
  start : Bool
  b : Bool
  deriving DecidableEq, Repr

/-- The library type `joypad_inputs_t`, restricted to the fields the program reads:
the buttons and the horizontal stick axis (an `int8_t`). -/
structure joypad_inputs_t where
  btn : joypad_buttons_t
  stick_x : Int
  deriving DecidableEq, Repr

/-- The struct `supage_player_t`. -/
structure supage_player_t where
  x : ℚ
  y : ℚ
  velocity_x : ℚ
  velocity_y : ℚ
  pull : Int
  points : Nat
  points_display : Nat
  color : color_t
  is_human : Bool
  state : supage_player_state
  attach : supage_direction
  previous_inputs : joypad_inputs_t
  no_act_frames : Nat
  balls : Nat
  deriving DecidableEq

/-- The struct `supage_ball_t`. -/
structure supage_ball_t where
  x : ℚ
  y : ℚ
  radius : ℚ
  color : color_t
  owner : Nat
  deriving DecidableEq

/-- The struct `supage_ctx_t` without its rendering and audio handles
(`fonts`, `sounds`, `depth_buffer`, `viewport`). -/
structure supage_ctx_t where
  players : Fin 4 → supage_player_t
  balls : Fin 12 → supage_ball_t
  ball_count : Nat
  state : supage_state

/-! ## The fixed-step update -/

/-- Lines 206-213 of `supage_fixedloop_playing`: the countdown of a player in
`SPG_PLAYER_STATE_PULL_RELEASE`. The second component is `true` when the
iteration ends here (the `continue` statement). -/
def release_countdown (player : supage_player_t) : supage_player_t × Bool :=
  if player.state = SPG_PLAYER_STATE_PULL_RELEASE then
    let player := { player with no_act_frames := unsigned_dec player.no_act_frames }
    if player.no_act_frames = 0 then
      ({ player with state := SPG_PLAYER_STATE_IDLE }, false)
    else
      (player, true)
  else
    (player, false)

/-- Lines 215-254 of `supage_fixedloop_playing`: input handling of one player.
The value `inputs` is what `joypad_get_inputs (core_get_playercontroller i)` returns;
the second component is `true` when `minigame_end` is called. -/
def handle_inputs (inputs : joypad_inputs_t) (player : supage_player_t) :
    supage_player_t × Bool :=
  if player.is_human then
    let ended := inputs.btn.start
    if inputs.btn.b then
      if player.state = SPG_PLAYER_STATE_IDLE then
        ({ player with state := SPG_PLAYER_STATE_PULL_START }, ended)
      else
        (player, ended)
    else
      match player.state with
      | SPG_PLAYER_STATE_PULL_START =>
        ({ player with state := SPG_PLAYER_STATE_IDLE }, ended)
      | SPG_PLAYER_STATE_PULL_ACTIVE =>
        ({ player with state := SPG_PLAYER_STATE_PULL_RELEASE, no_act_frames := 20 }, ended)
      | SPG_PLAYER_STATE_IDLE =>
        if inputs.stick_x.natAbs > SUPAGE_INPUT_DEADZONE then
          ({ player with state := SPG_PLAYER_STATE_MOVING }, ended)
        else
          (player, ended)
      | SPG_PLAYER_STATE_MOVING =>
        ({ player with velocity_x := float_mul_0_05 inputs.stick_x }, ended)
      | _ => (player, ended)
  else
    (player, false)

/-- Lines 256-257 of `supage_fixedloop_playing`: explicit Euler step. -/
def integrate_position (deltatime : ℚ) (player : supage_player_t) : supage_player_t :=
  let player := { player with x := player.x + player.velocity_x * deltatime }
  { player with y := player.y + player.velocity_y * deltatime }

/-- Lines 259-263 of `supage_fixedloop_playing`: the displayed points move one unit
towards the points. -/
def update_points_display (player : supage_player_t) : supage_player_t :=
  if player.points_display < player.points then
    { player with points_display := unsigned_inc player.points_display }
  else if player.points_display > player.points then
    { player with points_display := unsigned_dec player.points_display }
  else
    player

/-- One iteration of the `for` loop of `supage_fixedloop_playing` (lines 204-263) on
the player of the current slot. The second component is `true` when the iteration
calls `minigame_end`. -/
def player_iteration (deltatime : ℚ) (inputs : joypad_inputs_t) (player : supage_player_t) :
    supage_player_t × Bool :=
  let r := release_countdown player
  if r.2 then
    (r.1, false)
  else
    let h := handle_inputs inputs r.1
    (update_points_display (integrate_position deltatime h.1), h.2)

/-- The body of the `for` loop of `supage_fixedloop_playing` at index `i`, on the
context and the record of `minigame_end` calls so far. -/
def loop_body (deltatime : ℚ) (inputs : Fin 4 → joypad_inputs_t)
    (s : supage_ctx_t × List (Fin 4)) (i : Fin 4) : supage_ctx_t × List (Fin 4) :=
  let r := player_iteration deltatime (inputs i) (s.1.players i)
  ({ s.1 with players := Function.update s.1.players i r.1 },
    if r.2 then s.2 ++ [i] else s.2)

/-- The function `supage_fixedloop_playing`: slots 0..3 in order. `inputs i` is the
controller snapshot of slot `i` on this tick. The result is the new context and the
slots whose iteration called `minigame_end`. -/
def supage_fixedloop_playing (deltatime : ℚ) (inputs : Fin 4 → joypad_inputs_t)
    (supage : supage_ctx_t) : supage_ctx_t × List (Fin 4) :=
  [(0 : Fin 4), 1, 2, 3].foldl (loop_body deltatime inputs) (supage, [])

/-- The function `minigame_fixedloop`: only `SPG_STATE_PLAYING` has behaviour. -/
def minigame_fixedloop (deltatime : ℚ) (inputs : Fin 4 → joypad_inputs_t)
    (supage : supage_ctx_t) : supage_ctx_t × List (Fin 4) :=
  match supage.state with
  | SPG_STATE_PLAYING => supage_fixedloop_playing deltatime inputs supage
  | _ => (supage, [])

/-! ## Sequences of ticks -/

/-- What the host supplies on one tick: the time step and the four controller
snapshots. -/
structure Tick where
  deltatime : ℚ
  inputs : Fin 4 → joypad_inputs_t

/-- Consecutive calls of `supage_fixedloop_playing`, one per element of `ticks`. -/
def run_ticks (ticks : List Tick) (supage : supage_ctx_t) : supage_ctx_t :=
  ticks.foldl (fun c t => (supage_fixedloop_playing t.deltatime t.inputs c).1) supage

/-- Consecutive loop iterations on one player, one per element of `ticks`. -/
def run_player (ticks : List (ℚ × joypad_inputs_t)) (player : supage_player_t) :
    supage_player_t :=
  ticks.foldl (fun p t => (player_iteration t.1 t.2 p).1) player

/-- The player is skipped by this tick: it is in `SPG_PLAYER_STATE_PULL_RELEASE` and its
decremented `no_act_frames` is not 0, so the iteration takes the `continue`. -/
def skipped (player : supage_player_t) : Bool :=
  (release_countdown player).2

/-- The distance between two unsigned counters, without wrap-around. -/
def counter_dist (a b : Nat) : Nat := (a - b) + (b - a)

/-! ## Initialisation -/

/-- The all-zero player record left by `memset (&supage, 0, sizeof (supage))`. -/
def zero_player : supage_player_t where
  x := 0
  y := 0
  velocity_x := 0
  velocity_y := 0
  pull := 0
  points := 0
  points_display := 0
  color := ⟨0, 0, 0, 0⟩
  is_human := false
  state := SPG_PLAYER_STATE_INVALID
  attach := SUPAGE_DIRECTION_NONE
  previous_inputs := ⟨⟨false, false⟩, 0⟩
  no_act_frames := 0
  balls := 0

/-- The all-zero ball record left by the `memset`. -/
def zero_ball : supage_ball_t where
  x := 0
  y := 0
  radius := 0
  color := ⟨0, 0, 0, 0⟩
  owner := 0

/-- The body of the player loop of `minigame_init` (lines 171-177) at index `i`. -/
def init_loop_body (colors : Fin 4 → color_t) (playercount : Nat)
    (players : Fin 4 → supage_player_t) (i : Fin 4) : Fin 4 → supage_player_t :=
  let player := { players i with color := colors i, state := SPG_PLAYER_STATE_IDLE }
  let player := if playercount > i.val then { player with is_human := true } else player
  Function.update players i player

/-- The function `minigame_init`, on the modelled part of the context. The colour
table `colors` stands for the `PLAYERCOLOR_1` .. `PLAYERCOLOR_4` values of `core.h` and
`playercount` for the value returned by `core_get_playercount`. -/
def minigame_init (colors : Fin 4 → color_t) (playercount : Nat) : supage_ctx_t where
  players := [(0 : Fin 4), 1, 2, 3].foldl (init_loop_body colors playercount)
    (fun _ => zero_player)
  balls := fun _ => zero_ball
  ball_count := 0
  state := SPG_STATE_PLAYING

/-! ## Concrete players, contexts and ticks -/

/-- A human player at rest at the origin in the given state, with the given frame count,
points and displayed points. -/
def human_player (state : supage_player_state) (no_act_frames points points_display : Nat) :
    supage_player_t :=
  { zero_player with
    is_human := true, state := state, no_act_frames := no_act_frames,
    points := points, points_display := points_display }

/-- A context in the playing phase whose four slots all hold `player`. -/
def ctx_of (player : supage_player_t) : supage_ctx_t where
  players := fun _ => player
  balls := fun _ => zero_ball
  ball_count := 0
  state := SPG_STATE_PLAYING

/-- A tick of 1/60 s on which every controller reports the given buttons and stick. -/
def tick_of (start b : Bool) (stick_x : Int) : Tick where
  deltatime := 1 / 60
  inputs := fun _ => ⟨⟨start, b⟩, stick_x⟩

/-- Consecutive calls of `minigame_fixedloop`, one per element of `ticks`. -/
def run_fixedloop (ticks : List Tick) (supage : supage_ctx_t) : supage_ctx_t :=
  ticks.foldl (fun c t => (minigame_fixedloop t.deltatime t.inputs c).1) supage

/-- A player at rest at the origin that is not human, in the given state and with the
given frame count. -/
def ai_player (state : supage_player_state) (no_act_frames : Nat) : supage_player_t :=
  { zero_player with state := state, no_act_frames := no_act_frames }

/-! ## The loop acts on each slot independently -/

/-- After one pass of the loop, slot `i` holds the result of its own iteration. -/
theorem fixedloop_players (deltatime : ℚ) (inputs : Fin 4 → joypad_inputs_t)
    (supage : supage_ctx_t) (i : Fin 4) :
    (supage_fixedloop_playing deltatime inputs supage).1.players i
      = (player_iteration deltatime (inputs i) (supage.players i)).1 := by
  fin_cases i <;> simp [supage_fixedloop_playing, loop_body, Function.update]

/-- Slot `i` is recorded as having called `minigame_end` exactly when its own
iteration called it. -/
theorem fixedloop_ended (deltatime : ℚ) (inputs : Fin 4 → joypad_inputs_t)
    (supage : supage_ctx_t) (i : Fin 4) :
    i ∈ (supage_fixedloop_playing deltatime inputs supage).2
      ↔ (player_iteration deltatime (inputs i) (supage.players i)).2 = true := by
  fin_cases i <;>
    simp [supage_fixedloop_playing, loop_body, Function.update] <;>
    split_ifs <;> simp_all

/-- Running ticks on the context acts on slot `i` as running them on its player. -/
theorem run_ticks_players (ticks : List Tick) (supage : supage_ctx_t) (i : Fin 4) :
    (run_ticks ticks supage).players i
      = run_player (ticks.map (fun t => (t.deltatime, t.inputs i))) (supage.players i) := by
  induction ticks generalizing supage with
  | nil => rfl
  | cons t ts ih =>
    simp only [run_ticks, run_player, List.foldl_cons, List.map_cons] at ih ⊢
    rw [ih, fixedloop_players]

/-! ## Unsigned arithmetic -/

theorem unsigned_dec_pos (n : Nat) (h0 : 0 < n) (h : n < UNSIGNED_MOD) :
    unsigned_dec n = n - 1 := by
  unfold unsigned_dec UNSIGNED_MOD at *
  omega

theorem unsigned_inc_lt (n m : Nat) (h : n < m) (hm : m < UNSIGNED_MOD) :
    unsigned_inc n = n + 1 := by
  unfold unsigned_inc UNSIGNED_MOD at *
  omega

/-! ## The no-act window -/

/-- A player in `SPG_PLAYER_STATE_PULL_RELEASE` with more than one frame left only
loses one frame. -/
theorem iteration_release_continue (deltatime : ℚ) (inputs : joypad_inputs_t)
    (player : supage_player_t) (hs : player.state = SPG_PLAYER_STATE_PULL_RELEASE)
    (h1 : 1 < player.no_act_frames) (h : player.no_act_frames < UNSIGNED_MOD) :
    player_iteration deltatime inputs player
      = ({ player with no_act_frames := player.no_act_frames - 1 }, false) := by
  have hd : unsigned_dec player.no_act_frames = player.no_act_frames - 1 :=
    unsigned_dec_pos _ (by omega) h
  have hne : player.no_act_frames - 1 ≠ 0 := by omega
  simp [player_iteration, release_countdown, hs, hd, hne]

/-- While fewer ticks have run than frames are left, only the frame count changes. -/
theorem run_player_release (ticks : List (ℚ × joypad_inputs_t)) (player : supage_player_t)
    (hs : player.state = SPG_PLAYER_STATE_PULL_RELEASE)
    (hlen : ticks.length < player.no_act_frames) (h : player.no_act_frames < UNSIGNED_MOD) :
    run_player ticks player
      = { player with no_act_frames := player.no_act_frames - ticks.length } := by
  induction ticks generalizing player with
  | nil => simp [run_player]
  | cons t ts ih =>
    simp only [List.length_cons] at hlen
    have hstep := iteration_release_continue t.1 t.2 player hs (by omega) h
    have hrun : run_player (t :: ts) player
        = run_player ts { player with no_act_frames := player.no_act_frames - 1 } := by
      simp [run_player, hstep]
    rw [hrun, ih { player with no_act_frames := player.no_act_frames - 1 } hs
      (by show ts.length < player.no_act_frames - 1; omega)
      (by show player.no_act_frames - 1 < UNSIGNED_MOD; omega)]
    simp only [List.length_cons]
    congr 1
    omega

/-- A human player in `SPG_PLAYER_STATE_PULL_ACTIVE` that does not hold B enters
`SPG_PLAYER_STATE_PULL_RELEASE` with 20 frames. -/
theorem iteration_pull_active_release (deltatime : ℚ) (inputs : joypad_inputs_t)
    (player : supage_player_t) (hh : player.is_human = true)
    (hs : player.state = SPG_PLAYER_STATE_PULL_ACTIVE) (hb : inputs.btn.b = false) :
    (player_iteration deltatime inputs player).1.state = SPG_PLAYER_STATE_PULL_RELEASE
      ∧ (player_iteration deltatime inputs player).1.no_act_frames = 20 := by
  simp [player_iteration, release_countdown, handle_inputs, hh, hs, hb,
    integrate_position, update_points_display]
  split_ifs <;> simp

/-! ## Field-wise effect of the integration and of the points animation -/

@[simp] theorem integrate_position_state (deltatime : ℚ) (player : supage_player_t) :
    (integrate_position deltatime player).state = player.state := rfl

@[simp] theorem integrate_position_velocity_x (deltatime : ℚ) (player : supage_player_t) :
    (integrate_position deltatime player).velocity_x = player.velocity_x := rfl

@[simp] theorem integrate_position_velocity_y (deltatime : ℚ) (player : supage_player_t) :
    (integrate_position deltatime player).velocity_y = player.velocity_y := rfl

@[simp] theorem integrate_position_no_act_frames (deltatime : ℚ) (player : supage_player_t) :
    (integrate_position deltatime player).no_act_frames = player.no_act_frames := rfl

@[simp] theorem integrate_position_points (deltatime : ℚ) (player : supage_player_t) :
    (integrate_position deltatime player).points = player.points := rfl

@[simp] theorem integrate_position_points_display (deltatime : ℚ) (player : supage_player_t) :
    (integrate_position deltatime player).points_display = player.points_display := rfl

@[simp] theorem integrate_position_is_human (deltatime : ℚ) (player : supage_player_t) :
    (integrate_position deltatime player).is_human = player.is_human := rfl

@[simp] theorem integrate_position_x (deltatime : ℚ) (player : supage_player_t) :
    (integrate_position deltatime player).x = player.x + player.velocity_x * deltatime := rfl

@[simp] theorem integrate_position_y (deltatime : ℚ) (player : supage_player_t) :
    (integrate_position deltatime player).y = player.y + player.velocity_y * deltatime := rfl

@[simp] theorem update_points_display_state (player : supage_player_t) :
    (update_points_display player).state = player.state := by
  unfold update_points_display; split_ifs <;> rfl

@[simp] theorem update_points_display_velocity_x (player : supage_player_t) :
    (update_points_display player).velocity_x = player.velocity_x := by
  unfold update_points_display; split_ifs <;> rfl

@[simp] theorem update_points_display_velocity_y (player : supage_player_t) :
    (update_points_display player).velocity_y = player.velocity_y := by
  unfold update_points_display; split_ifs <;> rfl

@[simp] theorem update_points_display_no_act_frames (player : supage_player_t) :
    (update_points_display player).no_act_frames = player.no_act_frames := by
  unfold update_points_display; split_ifs <;> rfl

@[simp] theorem update_points_display_points (player : supage_player_t) :
    (update_points_display player).points = player.points := by
  unfold update_points_display; split_ifs <;> rfl

@[simp] theorem update_points_display_x (player : supage_player_t) :
    (update_points_display player).x = player.x := by
  unfold update_points_display; split_ifs <;> rfl

@[simp] theorem update_points_display_y (player : supage_player_t) :
    (update_points_display player).y = player.y := by
  unfold update_points_display; split_ifs <;> rfl

@[simp] theorem update_points_display_is_human (player : supage_player_t) :
    (update_points_display player).is_human = player.is_human := by
  unfold update_points_display; split_ifs <;> rfl

/-- On the tick that brings `no_act_frames` from 1 to 0 the player becomes idle and its
input is handled on that same tick. -/
theorem iteration_release_last (deltatime : ℚ) (inputs : joypad_inputs_t)
    (player : supage_player_t) (hh : player.is_human = true)
    (hs : player.state = SPG_PLAYER_STATE_PULL_RELEASE) (hn : player.no_act_frames = 1) :
    (player_iteration deltatime inputs player).1.state
      = if inputs.btn.b then SPG_PLAYER_STATE_PULL_START
        else if inputs.stick_x.natAbs > SUPAGE_INPUT_DEADZONE then SPG_PLAYER_STATE_MOVING
        else SPG_PLAYER_STATE_IDLE := by
  have hd : unsigned_dec 1 = 0 := by decide
  simp only [player_iteration, release_countdown, hs, hn, hd, if_true, handle_inputs, hh,
    update_points_display_state, integrate_position_state]
  split_ifs <;> simp_all

theorem run_player_append (ts us : List (ℚ × joypad_inputs_t)) (player : supage_player_t) :
    run_player (ts ++ us) player = run_player us (run_player ts player) := by
  simp [run_player, List.foldl_append]

/-! ## Points and displayed points -/

@[simp] theorem release_countdown_points (player : supage_player_t) :
    (release_countdown player).1.points = player.points := by
  unfold release_countdown
  by_cases h : player.state = SPG_PLAYER_STATE_PULL_RELEASE
  · by_cases h0 : unsigned_dec player.no_act_frames = 0 <;> simp [h, h0]
  · simp [h]

@[simp] theorem release_countdown_points_display (player : supage_player_t) :
    (release_countdown player).1.points_display = player.points_display := by
  unfold release_countdown
  by_cases h : player.state = SPG_PLAYER_STATE_PULL_RELEASE
  · by_cases h0 : unsigned_dec player.no_act_frames = 0 <;> simp [h, h0]
  · simp [h]

@[simp] theorem handle_inputs_points (inputs : joypad_inputs_t) (player : supage_player_t) :
    (handle_inputs inputs player).1.points = player.points := by
  unfold handle_inputs
  cases player.is_human <;> cases inputs.btn.b <;> cases hs : player.state <;>
    simp only [Bool.false_eq_true, if_false, if_true] <;> split_ifs <;> rfl

@[simp] theorem handle_inputs_points_display (inputs : joypad_inputs_t)
    (player : supage_player_t) :
    (handle_inputs inputs player).1.points_display = player.points_display := by
  unfold handle_inputs
  cases player.is_human <;> cases inputs.btn.b <;> cases hs : player.state <;>
    simp only [Bool.false_eq_true, if_false, if_true] <;> split_ifs <;> rfl

/-- No tick changes `points`. -/
theorem iteration_points (deltatime : ℚ) (inputs : joypad_inputs_t) (player : supage_player_t) :
    (player_iteration deltatime inputs player).1.points = player.points := by
  unfold player_iteration
  by_cases h : (release_countdown player).2 = true <;> simp [h]

/-- A skipped player keeps its displayed points. -/
theorem iteration_points_display_skipped (deltatime : ℚ) (inputs : joypad_inputs_t)
    (player : supage_player_t) (h : skipped player = true) :
    (player_iteration deltatime inputs player).1.points_display = player.points_display := by
  unfold skipped at h
  simp [player_iteration, h]

/-- A player that is not skipped has its displayed points moved by lines 259-263. -/
theorem iteration_points_display_not_skipped (deltatime : ℚ) (inputs : joypad_inputs_t)
    (player : supage_player_t) (h : skipped player = false) :
    (player_iteration deltatime inputs player).1.points_display
      = if player.points_display < player.points then unsigned_inc player.points_display
        else if player.points_display > player.points then
          unsigned_dec player.points_display
        else player.points_display := by
  unfold skipped at h
  simp only [player_iteration, h, Bool.false_eq_true, if_false, update_points_display]
  simp only [integrate_position_points_display, integrate_position_points,
    handle_inputs_points, handle_inputs_points_display, release_countdown_points,
    release_countdown_points_display]
  split_ifs <;> simp

/-- One tick that does not skip the player brings the displayed points one unit closer
to the points, which it leaves alone. -/
theorem iteration_counter_dist_not_skipped (deltatime : ℚ) (inputs : joypad_inputs_t)
    (player : supage_player_t) (h : skipped player = false)
    (hp : player.points < UNSIGNED_MOD) (hd : player.points_display < UNSIGNED_MOD) :
    (player_iteration deltatime inputs player).1.points = player.points
      ∧ (player_iteration deltatime inputs player).1.points_display < UNSIGNED_MOD
      ∧ counter_dist (player_iteration deltatime inputs player).1.points
          (player_iteration deltatime inputs player).1.points_display
        = counter_dist player.points player.points_display - 1 := by
  rw [iteration_points, iteration_points_display_not_skipped _ _ _ h]
  refine ⟨rfl, ?_, ?_⟩
  · split_ifs with h1 h2
    · rw [unsigned_inc_lt _ _ h1 hp]; omega
    · rw [unsigned_dec_pos _ (by omega) hd]; omega
    · exact hd
  · unfold counter_dist
    split_ifs with h1 h2
    · rw [unsigned_inc_lt _ _ h1 hp]; omega
    · rw [unsigned_dec_pos _ (by omega) hd]; omega
    · omega

/-- After as many non-skipping ticks as the distance between the two counters, the
displayed points equal the points. -/
theorem run_player_points_display (ticks : List (ℚ × joypad_inputs_t))
    (player : supage_player_t)
    (hp : player.points < UNSIGNED_MOD) (hd : player.points_display < UNSIGNED_MOD)
    (hlen : ticks.length = counter_dist player.points player.points_display)
    (hns : ∀ k, k < ticks.length → skipped (run_player (ticks.take k) player) = false) :
    (run_player ticks player).points_display = player.points
      ∧ (run_player ticks player).points = player.points := by
  induction ticks generalizing player with
  | nil =>
    simp only [List.length_nil, counter_dist] at hlen
    refine ⟨?_, rfl⟩
    show player.points_display = player.points
    omega
  | cons t ts ih =>
    have h0 : skipped player = false := hns 0 (by simp)
    obtain ⟨e1, e2, e3⟩ := iteration_counter_dist_not_skipped t.1 t.2 player h0 hp hd
    simp only [List.length_cons] at hlen
    have hrun : ∀ us : List (ℚ × joypad_inputs_t),
        run_player (t :: us) player = run_player us (player_iteration t.1 t.2 player).1 :=
      fun us => rfl
    have := ih (player_iteration t.1 t.2 player).1 (by rw [e1]; exact hp) e2
      (by rw [e3]; omega)
      (fun k hk => by
        have := hns (k + 1) (by simp only [List.length_cons]; omega)
        rwa [List.take_succ_cons, hrun] at this)
    rw [hrun, this.1, this.2, e1]
    exact ⟨rfl, rfl⟩

/-! ## The single-precision product `stick_x * 0.05f` -/

theorem float_mul_0_05_zero : float_mul_0_05 0 = 0 := by
  have h : round_to_24_bits 0 = 0 := by decide
  simp [float_mul_0_05, h]

theorem float_mul_0_05_one : float_mul_0_05 1 = 13421773 / 268435456 := by
  have h : round_to_24_bits (1 * 13421773) = 13421773 := by decide
  simp [float_mul_0_05, h]

theorem float_mul_0_05_forty : float_mul_0_05 40 = 2 := by
  have h : round_to_24_bits (40 * 13421773) = 536870912 := by decide
  simp [float_mul_0_05, h]
  norm_num

set_option maxRecDepth 1000000 in
/-- On the magnitudes of an `int8_t`, the rounded product is `n / 20` exactly for the
multiples of 5. -/
theorem round_to_24_bits_exact_iff : ∀ n, n < 129 →
    (round_to_24_bits (n * 13421773) * 20 = n * 268435456 ↔ n % 5 = 0) := by
  decide

/-- For an `int8_t` stick the binary32 product equals `stick_x × 0.05` exactly when the
stick is a multiple of 5. -/
theorem float_mul_0_05_exact_iff (s : Int) (h1 : -128 ≤ s) (h2 : s ≤ 127) :
    float_mul_0_05 s = (s : ℚ) * 0.05 ↔ 5 ∣ s := by
  have key := round_to_24_bits_exact_iff s.natAbs (by omega)
  have hdiv : 5 ∣ s ↔ s.natAbs % 5 = 0 := by omega
  rw [hdiv, ← key]
  unfold float_mul_0_05
  by_cases hs : s < 0
  · have hc : (s : ℚ) = -(s.natAbs : ℚ) := by
      have h3 := congrArg (fun z : ℤ => (z : ℚ)) (show s = -(s.natAbs : ℤ) by omega)
      simp only [Int.cast_neg, Int.cast_natCast] at h3
      exact h3
    rw [if_pos hs, hc]
    constructor
    · intro h
      have : (round_to_24_bits (s.natAbs * 13421773) : ℚ) * 20
          = (s.natAbs : ℚ) * 268435456 := by
        norm_num at h; linarith
      exact_mod_cast this
    · intro h
      have : (round_to_24_bits (s.natAbs * 13421773) : ℚ) * 20
          = (s.natAbs : ℚ) * 268435456 := by
        exact_mod_cast h
      norm_num; linarith
  · have hc : (s : ℚ) = (s.natAbs : ℚ) := by
      have h3 := congrArg (fun z : ℤ => (z : ℚ)) (show s = (s.natAbs : ℤ) by omega)
      simp only [Int.cast_natCast] at h3
      exact h3
    rw [if_neg hs, hc]
    constructor
    · intro h
      have : (round_to_24_bits (s.natAbs * 13421773) : ℚ) * 20
          = (s.natAbs : ℚ) * 268435456 := by
        norm_num at h; linarith
      exact_mod_cast this
    · intro h
      have : (round_to_24_bits (s.natAbs * 13421773) : ℚ) * 20
          = (s.natAbs : ℚ) * 268435456 := by
        exact_mod_cast h
      norm_num; linarith

/-! ## Position, velocity and the idle, charge and moving states -/

@[simp] theorem release_countdown_x (player : supage_player_t) :
    (release_countdown player).1.x = player.x := by
  unfold release_countdown
  by_cases h : player.state = SPG_PLAYER_STATE_PULL_RELEASE
  · by_cases h0 : unsigned_dec player.no_act_frames = 0 <;> simp [h, h0]
  · simp [h]

@[simp] theorem release_countdown_y (player : supage_player_t) :
    (release_countdown player).1.y = player.y := by
  unfold release_countdown
  by_cases h : player.state = SPG_PLAYER_STATE_PULL_RELEASE
  · by_cases h0 : unsigned_dec player.no_act_frames = 0 <;> simp [h, h0]
  · simp [h]

@[simp] theorem handle_inputs_x (inputs : joypad_inputs_t) (player : supage_player_t) :
    (handle_inputs inputs player).1.x = player.x := by
  unfold handle_inputs
  cases player.is_human <;> cases inputs.btn.b <;> cases hs : player.state <;>
    simp only [Bool.false_eq_true, if_false, if_true] <;> split_ifs <;> rfl

@[simp] theorem handle_inputs_y (inputs : joypad_inputs_t) (player : supage_player_t) :
    (handle_inputs inputs player).1.y = player.y := by
  unfold handle_inputs
  cases player.is_human <;> cases inputs.btn.b <;> cases hs : player.state <;>
    simp only [Bool.false_eq_true, if_false, if_true] <;> split_ifs <;> rfl

/-- A player that is not skipped is integrated with the velocity it has at the end of the
same iteration. -/
theorem iteration_position (deltatime : ℚ) (inputs : joypad_inputs_t)
    (player : supage_player_t) (h : skipped player = false) :
    (player_iteration deltatime inputs player).1.x
        = player.x + (player_iteration deltatime inputs player).1.velocity_x * deltatime
      ∧ (player_iteration deltatime inputs player).1.y
        = player.y + (player_iteration deltatime inputs player).1.velocity_y * deltatime := by
  unfold skipped at h
  simp [player_iteration, h]

/-- The iteration of a human player that is not in Release is the input handling
followed by the integration and the points animation. -/
theorem iteration_not_release (deltatime : ℚ) (inputs : joypad_inputs_t)
    (player : supage_player_t) (hs : player.state ≠ SPG_PLAYER_STATE_PULL_RELEASE) :
    player_iteration deltatime inputs player
      = (update_points_display (integrate_position deltatime (handle_inputs inputs player).1),
          (handle_inputs inputs player).2) := by
  simp [player_iteration, release_countdown, hs]

/-- An idle human player with B not held and the stick inside the deadzone stays an idle
human player with the same velocity. -/
theorem iteration_idle_stable (deltatime : ℚ) (inputs : joypad_inputs_t)
    (player : supage_player_t) (hh : player.is_human = true)
    (hs : player.state = SPG_PLAYER_STATE_IDLE) (hb : inputs.btn.b = false)
    (hx : inputs.stick_x.natAbs ≤ SUPAGE_INPUT_DEADZONE) :
    (player_iteration deltatime inputs player).1.is_human = true
      ∧ (player_iteration deltatime inputs player).1.state = SPG_PLAYER_STATE_IDLE
      ∧ (player_iteration deltatime inputs player).1.velocity_x = player.velocity_x
      ∧ (player_iteration deltatime inputs player).1.velocity_y = player.velocity_y := by
  have hx2 : ¬ inputs.stick_x.natAbs > SUPAGE_INPUT_DEADZONE := by omega
  rw [iteration_not_release _ _ _ (by rw [hs]; decide)]
  simp [handle_inputs, hh, hs, hb, hx2]

theorem run_player_idle_stable (ticks : List (ℚ × joypad_inputs_t))
    (player : supage_player_t) (hh : player.is_human = true)
    (hs : player.state = SPG_PLAYER_STATE_IDLE)
    (hin : ∀ t ∈ ticks, t.2.btn.b = false ∧ t.2.stick_x.natAbs ≤ SUPAGE_INPUT_DEADZONE) :
    (run_player ticks player).is_human = true
      ∧ (run_player ticks player).state = SPG_PLAYER_STATE_IDLE
      ∧ (run_player ticks player).velocity_x = player.velocity_x
      ∧ (run_player ticks player).velocity_y = player.velocity_y := by
  induction ticks generalizing player with
  | nil => exact ⟨hh, hs, rfl, rfl⟩
  | cons t ts ih =>
    obtain ⟨hb, hx⟩ := hin t (by simp)
    obtain ⟨e1, e2, e3, e4⟩ := iteration_idle_stable t.1 t.2 player hh hs hb hx
    have hrun : run_player (t :: ts) player
        = run_player ts (player_iteration t.1 t.2 player).1 := rfl
    obtain ⟨f1, f2, f3, f4⟩ := ih (player_iteration t.1 t.2 player).1 e1 e2
      (fun u hu => hin u (List.mem_cons_of_mem _ hu))
    rw [hrun]
    exact ⟨f1, f2, f3.trans e3, f4.trans e4⟩

/-- An idle human player with B not held and the stick outside the deadzone becomes a
moving human player; its velocity is not written. -/
theorem iteration_idle_to_moving (deltatime : ℚ) (inputs : joypad_inputs_t)
    (player : supage_player_t) (hh : player.is_human = true)
    (hs : player.state = SPG_PLAYER_STATE_IDLE) (hb : inputs.btn.b = false)
    (hx : inputs.stick_x.natAbs > SUPAGE_INPUT_DEADZONE) :
    (player_iteration deltatime inputs player).1.is_human = true
      ∧ (player_iteration deltatime inputs player).1.state = SPG_PLAYER_STATE_MOVING
      ∧ (player_iteration deltatime inputs player).1.velocity_x = player.velocity_x
      ∧ (player_iteration deltatime inputs player).1.velocity_y = player.velocity_y := by
  rw [iteration_not_release _ _ _ (by rw [hs]; decide)]
  simp [handle_inputs, hh, hs, hb, hx]

/-- A moving human player with B not held stays moving and takes its horizontal velocity
from the stick. -/
theorem iteration_moving (deltatime : ℚ) (inputs : joypad_inputs_t)
    (player : supage_player_t) (hh : player.is_human = true)
    (hs : player.state = SPG_PLAYER_STATE_MOVING) (hb : inputs.btn.b = false) :
    (player_iteration deltatime inputs player).1.state = SPG_PLAYER_STATE_MOVING
      ∧ (player_iteration deltatime inputs player).1.velocity_x
        = float_mul_0_05 inputs.stick_x := by
  rw [iteration_not_release _ _ _ (by rw [hs]; decide)]
  simp [handle_inputs, hh, hs, hb]

/-! ## From `minigame_init` through `minigame_fixedloop` -/

/-- The player loop does not touch the phase of the game. -/
theorem fixedloop_state (deltatime : ℚ) (inputs : Fin 4 → joypad_inputs_t)
    (supage : supage_ctx_t) :
    (supage_fixedloop_playing deltatime inputs supage).1.state = supage.state := by
  simp [supage_fixedloop_playing, loop_body]

/-- In the playing phase `minigame_fixedloop` is `supage_fixedloop_playing`. -/
theorem minigame_fixedloop_playing (deltatime : ℚ) (inputs : Fin 4 → joypad_inputs_t)
    (supage : supage_ctx_t) (h : supage.state = SPG_STATE_PLAYING) :
    minigame_fixedloop deltatime inputs supage
      = supage_fixedloop_playing deltatime inputs supage := by
  simp [minigame_fixedloop, h]

/-- From a context in the playing phase, calls of `minigame_fixedloop` are calls of
`supage_fixedloop_playing`. -/
theorem run_fixedloop_playing (ticks : List Tick) (supage : supage_ctx_t)
    (h : supage.state = SPG_STATE_PLAYING) :
    run_fixedloop ticks supage = run_ticks ticks supage := by
  induction ticks generalizing supage with
  | nil => rfl
  | cons t ts ih =>
    simp only [run_fixedloop, run_ticks, List.foldl_cons] at ih ⊢
    rw [minigame_fixedloop_playing _ _ _ h]
    exact ih _ (by rw [fixedloop_state]; exact h)

/-- The player records built by `minigame_init`. -/
theorem minigame_init_players (colors : Fin 4 → color_t) (playercount : Nat) (i : Fin 4) :
    (minigame_init colors playercount).players i
      = { zero_player with
          color := colors i, state := SPG_PLAYER_STATE_IDLE,
          is_human := decide (playercount > i.val) } := by
  fin_cases i <;>
    simp [minigame_init, init_loop_body, Function.update] <;>
    split_ifs with h <;> simp_all [zero_player] <;> exact h

/-! ## Effect of one iteration on the velocity, the control flag and the state -/

@[simp] theorem release_countdown_velocity_y (player : supage_player_t) :
    (release_countdown player).1.velocity_y = player.velocity_y := by
  unfold release_countdown
  by_cases h : player.state = SPG_PLAYER_STATE_PULL_RELEASE
  · by_cases h0 : unsigned_dec player.no_act_frames = 0 <;> simp [h, h0]
  · simp [h]

@[simp] theorem release_countdown_is_human (player : supage_player_t) :
    (release_countdown player).1.is_human = player.is_human := by
  unfold release_countdown
  by_cases h : player.state = SPG_PLAYER_STATE_PULL_RELEASE
  · by_cases h0 : unsigned_dec player.no_act_frames = 0 <;> simp [h, h0]
  · simp [h]

@[simp] theorem handle_inputs_velocity_y (inputs : joypad_inputs_t)
    (player : supage_player_t) :
    (handle_inputs inputs player).1.velocity_y = player.velocity_y := by
  unfold handle_inputs
  cases player.is_human <;> cases inputs.btn.b <;> cases hs : player.state <;>
    simp only [Bool.false_eq_true, if_false, if_true] <;> split_ifs <;> rfl

@[simp] theorem handle_inputs_is_human (inputs : joypad_inputs_t) (player : supage_player_t) :
    (handle_inputs inputs player).1.is_human = player.is_human := by
  unfold handle_inputs
  cases hh : player.is_human <;> cases inputs.btn.b <;> cases hs : player.state <;>
    simp only [Bool.false_eq_true, if_false, if_true] <;> (try split_ifs) <;> simp [hh]

/-- No iteration writes `velocity_y`. -/
theorem iteration_velocity_y (deltatime : ℚ) (inputs : joypad_inputs_t)
    (player : supage_player_t) :
    (player_iteration deltatime inputs player).1.velocity_y = player.velocity_y := by
  unfold player_iteration
  by_cases h : (release_countdown player).2 = true <;> simp [h]

/-- No iteration changes which slots are human. -/
theorem iteration_is_human (deltatime : ℚ) (inputs : joypad_inputs_t)
    (player : supage_player_t) :
    (player_iteration deltatime inputs player).1.is_human = player.is_human := by
  unfold player_iteration
  by_cases h : (release_countdown player).2 = true <;> simp [h]

/-- With zero vertical velocity an iteration leaves `y` alone. -/
theorem iteration_y_of_velocity_y_zero (deltatime : ℚ) (inputs : joypad_inputs_t)
    (player : supage_player_t) (hv : player.velocity_y = 0) :
    (player_iteration deltatime inputs player).1.y = player.y := by
  unfold player_iteration
  by_cases h : (release_countdown player).2 = true <;> simp [h, hv]

/-- The input handling started in Idle, ChargeStart or Moving ends in one of them. -/
theorem handle_inputs_state_closed (inputs : joypad_inputs_t) (player : supage_player_t)
    (h : player.state = SPG_PLAYER_STATE_IDLE ∨ player.state = SPG_PLAYER_STATE_PULL_START
      ∨ player.state = SPG_PLAYER_STATE_MOVING) :
    (handle_inputs inputs player).1.state = SPG_PLAYER_STATE_IDLE
      ∨ (handle_inputs inputs player).1.state = SPG_PLAYER_STATE_PULL_START
      ∨ (handle_inputs inputs player).1.state = SPG_PLAYER_STATE_MOVING := by
  unfold handle_inputs
  rcases h with h | h | h <;> cases player.is_human <;> cases inputs.btn.b <;>
    simp only [h, Bool.false_eq_true, if_false, if_true] <;> (try split_ifs) <;> simp [h]

/-- The input handling never produces `SPG_PLAYER_STATE_INVALID` nor
`SPG_PLAYER_STATE_SIZE` from another state. -/
theorem handle_inputs_state_defined (inputs : joypad_inputs_t) (player : supage_player_t)
    (h1 : player.state ≠ SPG_PLAYER_STATE_INVALID)
    (h2 : player.state ≠ SPG_PLAYER_STATE_SIZE) :
    (handle_inputs inputs player).1.state ≠ SPG_PLAYER_STATE_INVALID
      ∧ (handle_inputs inputs player).1.state ≠ SPG_PLAYER_STATE_SIZE := by
  unfold handle_inputs
  cases player.is_human <;> cases inputs.btn.b <;> cases hs : player.state <;>
    simp only [Bool.false_eq_true, if_false, if_true] <;> (try split_ifs) <;> simp_all

/-- The input handling of a moving player leaves it moving. -/
theorem handle_inputs_state_moving (inputs : joypad_inputs_t) (player : supage_player_t)
    (h : player.state = SPG_PLAYER_STATE_MOVING) :
    (handle_inputs inputs player).1.state = SPG_PLAYER_STATE_MOVING := by
  unfold handle_inputs
  cases player.is_human <;> cases inputs.btn.b <;>
    simp [h]

/-- An iteration started in Idle, ChargeStart or Moving ends in one of them. -/
theorem iteration_state_closed (deltatime : ℚ) (inputs : joypad_inputs_t)
    (player : supage_player_t)
    (h : player.state = SPG_PLAYER_STATE_IDLE ∨ player.state = SPG_PLAYER_STATE_PULL_START
      ∨ player.state = SPG_PLAYER_STATE_MOVING) :
    (player_iteration deltatime inputs player).1.state = SPG_PLAYER_STATE_IDLE
      ∨ (player_iteration deltatime inputs player).1.state = SPG_PLAYER_STATE_PULL_START
      ∨ (player_iteration deltatime inputs player).1.state = SPG_PLAYER_STATE_MOVING := by
  have hr : player.state ≠ SPG_PLAYER_STATE_PULL_RELEASE := by
    rcases h with h | h | h <;> rw [h] <;> decide
  rw [iteration_not_release _ _ _ hr]
  simpa using handle_inputs_state_closed inputs player h

/-- Idle, ChargeStart and Moving are closed under any sequence of iterations. -/
theorem run_player_state_closed (ticks : List (ℚ × joypad_inputs_t))
    (player : supage_player_t)
    (h : player.state = SPG_PLAYER_STATE_IDLE ∨ player.state = SPG_PLAYER_STATE_PULL_START
      ∨ player.state = SPG_PLAYER_STATE_MOVING) :
    (run_player ticks player).state = SPG_PLAYER_STATE_IDLE
      ∨ (run_player ticks player).state = SPG_PLAYER_STATE_PULL_START
      ∨ (run_player ticks player).state = SPG_PLAYER_STATE_MOVING := by
  induction ticks generalizing player with
  | nil => exact h
  | cons t ts ih => exact ih _ (iteration_state_closed t.1 t.2 player h)

/-- An iteration of a moving player leaves it moving. -/
theorem iteration_state_moving (deltatime : ℚ) (inputs : joypad_inputs_t)
    (player : supage_player_t) (h : player.state = SPG_PLAYER_STATE_MOVING) :
    (player_iteration deltatime inputs player).1.state = SPG_PLAYER_STATE_MOVING := by
  rw [iteration_not_release _ _ _ (by rw [h]; decide)]
  simpa using handle_inputs_state_moving inputs player h

theorem run_player_state_moving (ticks : List (ℚ × joypad_inputs_t))
    (player : supage_player_t) (h : player.state = SPG_PLAYER_STATE_MOVING) :
    (run_player ticks player).state = SPG_PLAYER_STATE_MOVING := by
  induction ticks generalizing player with
  | nil => exact h
  | cons t ts ih => exact ih _ (iteration_state_moving t.1 t.2 player h)

/-- Any sequence of iterations keeps `velocity_y`, and keeps `y` when `velocity_y = 0`. -/
theorem run_player_vertical (ticks : List (ℚ × joypad_inputs_t)) (player : supage_player_t) :
    (run_player ticks player).velocity_y = player.velocity_y
      ∧ (player.velocity_y = 0 → (run_player ticks player).y = player.y) := by
  induction ticks generalizing player with
  | nil => exact ⟨rfl, fun _ => rfl⟩
  | cons t ts ih =>
    obtain ⟨e1, e2⟩ := ih (player_iteration t.1 t.2 player).1
    have hrun : run_player (t :: ts) player
        = run_player ts (player_iteration t.1 t.2 player).1 := rfl
    rw [hrun, e1, iteration_velocity_y]
    refine ⟨rfl, fun hv => ?_⟩
    rw [e2 (by rw [iteration_velocity_y]; exact hv),
      iteration_y_of_velocity_y_zero _ _ _ hv]

/-- The countdown never produces `SPG_PLAYER_STATE_INVALID` nor `SPG_PLAYER_STATE_SIZE`
from another state. -/
theorem release_countdown_state_defined (player : supage_player_t)
    (h1 : player.state ≠ SPG_PLAYER_STATE_INVALID)
    (h2 : player.state ≠ SPG_PLAYER_STATE_SIZE) :
    (release_countdown player).1.state ≠ SPG_PLAYER_STATE_INVALID
      ∧ (release_countdown player).1.state ≠ SPG_PLAYER_STATE_SIZE := by
  unfold release_countdown
  by_cases h : player.state = SPG_PLAYER_STATE_PULL_RELEASE
  · by_cases h0 : unsigned_dec player.no_act_frames = 0 <;> simp [h, h0]
  · simp [h, h1, h2]

/-- An iteration never produces `SPG_PLAYER_STATE_INVALID` nor `SPG_PLAYER_STATE_SIZE`
from another state. -/
theorem iteration_state_defined (deltatime : ℚ) (inputs : joypad_inputs_t)
    (player : supage_player_t)
    (h1 : player.state ≠ SPG_PLAYER_STATE_INVALID)
    (h2 : player.state ≠ SPG_PLAYER_STATE_SIZE) :
    (player_iteration deltatime inputs player).1.state ≠ SPG_PLAYER_STATE_INVALID
      ∧ (player_iteration deltatime inputs player).1.state ≠ SPG_PLAYER_STATE_SIZE := by
  obtain ⟨r1, r2⟩ := release_countdown_state_defined player h1 h2
  unfold player_iteration
  by_cases h : (release_countdown player).2 = true
  · simp only [h, if_true]
    exact ⟨r1, r2⟩
  · simp only [h, Bool.false_eq_true, if_false, update_points_display_state,
      integrate_position_state]
    exact handle_inputs_state_defined inputs _ r1 r2

theorem run_player_state_defined (ticks : List (ℚ × joypad_inputs_t))
    (player : supage_player_t)
    (h1 : player.state ≠ SPG_PLAYER_STATE_INVALID)
    (h2 : player.state ≠ SPG_PLAYER_STATE_SIZE) :
    (run_player ticks player).state ≠ SPG_PLAYER_STATE_INVALID
      ∧ (run_player ticks player).state ≠ SPG_PLAYER_STATE_SIZE := by
  induction ticks generalizing player with
  | nil => exact ⟨h1, h2⟩
  | cons t ts ih =>
    obtain ⟨e1, e2⟩ := iteration_state_defined t.1 t.2 player h1 h2
    exact ih _ e1 e2

/-! ## The round-end signal and the inert cases of the input handling -/

/-- The input handling calls `minigame_end` exactly for a human player whose start button
is pressed. -/
theorem handle_inputs_ended (inputs : joypad_inputs_t) (player : supage_player_t) :
    (handle_inputs inputs player).2 = (player.is_human && inputs.btn.start) := by
  unfold handle_inputs
  cases hh : player.is_human <;> cases inputs.btn.b <;> cases hs : player.state <;>
    simp only [Bool.false_eq_true, if_false, if_true] <;> (try split_ifs) <;> simp

/-- An iteration calls `minigame_end` exactly for a human player that is not skipped and
whose start button is pressed. -/
theorem iteration_ended (deltatime : ℚ) (inputs : joypad_inputs_t)
    (player : supage_player_t) :
    (player_iteration deltatime inputs player).2 = true
      ↔ player.is_human = true ∧ skipped player = false ∧ inputs.btn.start = true := by
  unfold player_iteration skipped
  by_cases h : (release_countdown player).2 = true
  · simp [h]
  · simp [h, handle_inputs_ended]

/-- The input handling of a player that is not human does nothing. -/
theorem handle_inputs_not_human (inputs : joypad_inputs_t) (player : supage_player_t)
    (hh : player.is_human = false) :
    handle_inputs inputs player = (player, false) := by
  simp [handle_inputs, hh]

/-- With B held, the input handling of a human player that is not idle changes nothing. -/
theorem handle_inputs_b_held (inputs : joypad_inputs_t) (player : supage_player_t)
    (hh : player.is_human = true) (hb : inputs.btn.b = true)
    (hs : player.state ≠ SPG_PLAYER_STATE_IDLE) :
    handle_inputs inputs player = (player, inputs.btn.start) := by
  simp [handle_inputs, hh, hb, hs]

/-! ## The bounds of the no-act countdown -/

/-- The iteration that brings the countdown to 0 makes the player idle and handles its
input. -/
theorem iteration_release_end (deltatime : ℚ) (inputs : joypad_inputs_t)
    (player : supage_player_t) (hs : player.state = SPG_PLAYER_STATE_PULL_RELEASE)
    (h0 : unsigned_dec player.no_act_frames = 0) :
    (player_iteration deltatime inputs player).1
      = update_points_display (integrate_position deltatime
          (handle_inputs inputs
            { player with no_act_frames := 0, state := SPG_PLAYER_STATE_IDLE }).1) := by
  simp [player_iteration, release_countdown, hs, h0]

/-- The input handling enters Release only with 20 frames. -/
theorem handle_inputs_release_entry (inputs : joypad_inputs_t) (player : supage_player_t)
    (hs : player.state ≠ SPG_PLAYER_STATE_PULL_RELEASE)
    (h : (handle_inputs inputs player).1.state = SPG_PLAYER_STATE_PULL_RELEASE) :
    (handle_inputs inputs player).1.no_act_frames = 20 := by
  revert h
  unfold handle_inputs
  cases player.is_human <;> cases inputs.btn.b <;> cases hp : player.state <;>
    simp only [Bool.false_eq_true, if_false, if_true] <;> (try split_ifs) <;> simp_all

/-- One iteration on a player whose countdown, if it is in Release, is between 1 and 20:
in Release the decrement does not wrap and either the player stays in Release with one
frame less, or it had one frame left and leaves Release; after the iteration the
countdown of a player in Release is again between 1 and 20. -/
theorem iteration_release_window (deltatime : ℚ) (inputs : joypad_inputs_t)
    (player : supage_player_t)
    (hinv : player.state = SPG_PLAYER_STATE_PULL_RELEASE →
      1 ≤ player.no_act_frames ∧ player.no_act_frames ≤ 20) :
    (player.state = SPG_PLAYER_STATE_PULL_RELEASE →
        unsigned_dec player.no_act_frames + 1 = player.no_act_frames
        ∧ (((player_iteration deltatime inputs player).1.state = SPG_PLAYER_STATE_PULL_RELEASE
            ∧ 1 ≤ (player_iteration deltatime inputs player).1.no_act_frames
            ∧ (player_iteration deltatime inputs player).1.no_act_frames ≤ 19)
          ∨ (player_iteration deltatime inputs player).1.state
              ≠ SPG_PLAYER_STATE_PULL_RELEASE))
      ∧ ((player_iteration deltatime inputs player).1.state = SPG_PLAYER_STATE_PULL_RELEASE →
        1 ≤ (player_iteration deltatime inputs player).1.no_act_frames
        ∧ (player_iteration deltatime inputs player).1.no_act_frames ≤ 20) := by
  by_cases hs : player.state = SPG_PLAYER_STATE_PULL_RELEASE
  · obtain ⟨h1, h20⟩ := hinv hs
    have hlt : player.no_act_frames < UNSIGNED_MOD := by unfold UNSIGNED_MOD; omega
    have hd := unsigned_dec_pos _ h1 hlt
    by_cases hone : player.no_act_frames = 1
    · have h0 : unsigned_dec player.no_act_frames = 0 := by rw [hd, hone]
      have hleft : (player_iteration deltatime inputs player).1.state
          ≠ SPG_PLAYER_STATE_PULL_RELEASE := by
        rw [iteration_release_end _ _ _ hs h0]
        have := handle_inputs_state_closed inputs
          { player with no_act_frames := 0, state := SPG_PLAYER_STATE_IDLE } (Or.inl rfl)
        simp only [update_points_display_state, integrate_position_state]
        rcases this with h | h | h <;> rw [h] <;> decide
      exact ⟨fun _ => ⟨by omega, Or.inr hleft⟩, fun h => absurd h hleft⟩
    · have hc := iteration_release_continue deltatime inputs player hs (by omega) hlt
      rw [hc]
      refine ⟨fun _ => ⟨by omega, Or.inl ⟨hs, ?_, ?_⟩⟩, fun _ => ⟨?_, ?_⟩⟩ <;>
        (show _ ≤ _) <;> simp only <;> omega
  · refine ⟨fun h => absurd h hs, fun h => ?_⟩
    rw [iteration_not_release _ _ _ hs] at h ⊢
    simp only [update_points_display_state, integrate_position_state,
      update_points_display_no_act_frames, integrate_position_no_act_frames] at h ⊢
    rw [handle_inputs_release_entry inputs player hs h]
    exact ⟨by decide, by decide⟩

/-! ## Claims -/

/-- C1: a human player in ChargeActive (`SPG_PLAYER_STATE_PULL_ACTIVE`) on a tick with B
not held ends that tick in Release (`SPG_PLAYER_STATE_PULL_RELEASE`) with
`no_act_frames = 20`; after any further `k ≤ 19` ticks, whatever their inputs, the player
is still in Release with `no_act_frames = 20 - k`. -/
theorem C1_release_entry_and_countdown (supage : supage_ctx_t) (i : Fin 4) (t0 : Tick)
    (ticks : List Tick)
    (hh : (supage.players i).is_human = true)
    (hs : (supage.players i).state = SPG_PLAYER_STATE_PULL_ACTIVE)
    (hb : (t0.inputs i).btn.b = false)
    (hlen : ticks.length ≤ 19) :
    ((supage_fixedloop_playing t0.deltatime t0.inputs supage).1.players i).state
        = SPG_PLAYER_STATE_PULL_RELEASE
      ∧ ((supage_fixedloop_playing t0.deltatime t0.inputs supage).1.players i).no_act_frames
        = 20
      ∧ ((run_ticks ticks (supage_fixedloop_playing t0.deltatime t0.inputs supage).1).players
          i).state = SPG_PLAYER_STATE_PULL_RELEASE
      ∧ ((run_ticks ticks (supage_fixedloop_playing t0.deltatime t0.inputs supage).1).players
          i).no_act_frames = 20 - ticks.length := by
  obtain ⟨h1, h2⟩ := iteration_pull_active_release t0.deltatime (t0.inputs i)
    (supage.players i) hh hs hb
  rw [← fixedloop_players] at h1 h2
  refine ⟨h1, h2, ?_, ?_⟩
  · rw [run_ticks_players, run_player_release _ _ h1 (by simp [h2]; omega)
      (by rw [h2]; decide)]
    exact h1
  · rw [run_ticks_players, run_player_release _ _ h1 (by simp [h2]; omega)
      (by rw [h2]; decide)]
    simp [h2]

/-- Witness of C1: slot 0 in ChargeActive, B released, then 19 ticks with start and B held
and the stick deflected. -/
theorem C1_release_entry_and_countdown_witness :
    ((supage_fixedloop_playing (tick_of false false 0).deltatime (tick_of false false 0).inputs
        (ctx_of (human_player SPG_PLAYER_STATE_PULL_ACTIVE 0 0 0))).1.players 0).state
        = SPG_PLAYER_STATE_PULL_RELEASE
      ∧ ((supage_fixedloop_playing (tick_of false false 0).deltatime
          (tick_of false false 0).inputs
          (ctx_of (human_player SPG_PLAYER_STATE_PULL_ACTIVE 0 0 0))).1.players 0).no_act_frames
        = 20
      ∧ ((run_ticks (List.replicate 19 (tick_of true true 40))
          (supage_fixedloop_playing (tick_of false false 0).deltatime
            (tick_of false false 0).inputs
            (ctx_of (human_player SPG_PLAYER_STATE_PULL_ACTIVE 0 0 0))).1).players 0).state
        = SPG_PLAYER_STATE_PULL_RELEASE
      ∧ ((run_ticks (List.replicate 19 (tick_of true true 40))
          (supage_fixedloop_playing (tick_of false false 0).deltatime
            (tick_of false false 0).inputs
            (ctx_of (human_player SPG_PLAYER_STATE_PULL_ACTIVE 0 0 0))).1).players
          0).no_act_frames = 20 - (List.replicate 19 (tick_of true true 40)).length :=
  C1_release_entry_and_countdown (ctx_of (human_player SPG_PLAYER_STATE_PULL_ACTIVE 0 0 0)) 0
    (tick_of false false 0) (List.replicate 19 (tick_of true true 40)) rfl rfl rfl
    (by simp)

/-- C2 fails as stated: a human player in Release with `no_act_frames = 20` that holds B on
the 20th tick ends that tick in ChargeStart, not in Idle. -/
theorem C2_counterexample :
    ((ctx_of (human_player SPG_PLAYER_STATE_PULL_RELEASE 20 0 0)).players 0).is_human = true
      ∧ ((ctx_of (human_player SPG_PLAYER_STATE_PULL_RELEASE 20 0 0)).players 0).state
        = SPG_PLAYER_STATE_PULL_RELEASE
      ∧ ((ctx_of (human_player SPG_PLAYER_STATE_PULL_RELEASE 20 0 0)).players 0).no_act_frames
        = 20
      ∧ (List.replicate 19 (tick_of false false 0) ++ [tick_of false true 0]).length = 20
      ∧ ((run_ticks (List.replicate 19 (tick_of false false 0) ++ [tick_of false true 0])
          (ctx_of (human_player SPG_PLAYER_STATE_PULL_RELEASE 20 0 0))).players 0).state
        = SPG_PLAYER_STATE_PULL_START
      ∧ ((run_ticks (List.replicate 19 (tick_of false false 0) ++ [tick_of false true 0])
          (ctx_of (human_player SPG_PLAYER_STATE_PULL_RELEASE 20 0 0))).players 0).state
        ≠ SPG_PLAYER_STATE_IDLE := by
  have hrun : ((run_ticks (List.replicate 19 (tick_of false false 0) ++ [tick_of false true 0])
      (ctx_of (human_player SPG_PLAYER_STATE_PULL_RELEASE 20 0 0))).players 0).state
      = SPG_PLAYER_STATE_PULL_START := by
    have hp : (ctx_of (human_player SPG_PLAYER_STATE_PULL_RELEASE 20 0 0)).players 0
        = human_player SPG_PLAYER_STATE_PULL_RELEASE 20 0 0 := rfl
    rw [run_ticks_players, List.map_append, run_player_append, hp,
      run_player_release
        (List.map (fun t => (t.deltatime, t.inputs 0)) (List.replicate 19 (tick_of false false 0)))
        (human_player SPG_PLAYER_STATE_PULL_RELEASE 20 0 0) rfl
        (by simp [human_player]) (by show 20 < UNSIGNED_MOD; decide)]
    simp [run_player, tick_of, ctx_of, human_player, zero_player, player_iteration,
      release_countdown, handle_inputs, unsigned_dec, UNSIGNED_MOD]
  refine ⟨rfl, rfl, rfl, by simp, hrun, ?_⟩
  rw [hrun]
  decide

/-- C2 (amended): let a human player be in Release with `no_act_frames = 20`, and let the
next 19 ticks be `pre`, then `t`, then `post`, so that `t` is any one of them. Whatever
the inputs, before `t` the player record is the initial one with `no_act_frames` lowered
by the number of ticks run, the tick `t` issues no `minigame_end` for the slot, and after
`t` the record is again the initial one with one frame less: no input is processed on the
first 19 ticks. The 20th tick makes the player idle and handles its input in the same
tick: `minigame_end` is issued for the slot exactly when start is pressed, and the state
at the end of the 20th tick is ChargeStart if B is held, Moving if B is not held and
`|stick_x| > 5`, and Idle otherwise. -/
theorem C2_release_ends_after_20_ticks (supage : supage_ctx_t) (i : Fin 4)
    (pre : List Tick) (t : Tick) (post : List Tick) (t20 : Tick)
    (hh : (supage.players i).is_human = true)
    (hs : (supage.players i).state = SPG_PLAYER_STATE_PULL_RELEASE)
    (hn : (supage.players i).no_act_frames = 20)
    (hlen : (pre ++ t :: post).length = 19) :
    (run_ticks pre supage).players i
        = { supage.players i with no_act_frames := 20 - pre.length }
      ∧ i ∉ (supage_fixedloop_playing t.deltatime t.inputs (run_ticks pre supage)).2
      ∧ (run_ticks (pre ++ [t]) supage).players i
        = { supage.players i with no_act_frames := 20 - (pre.length + 1) }
      ∧ (i ∈ (supage_fixedloop_playing t20.deltatime t20.inputs
            (run_ticks (pre ++ t :: post) supage)).2
          ↔ (t20.inputs i).btn.start = true)
      ∧ ((run_ticks ((pre ++ t :: post) ++ [t20]) supage).players i).state
        = if (t20.inputs i).btn.b then SPG_PLAYER_STATE_PULL_START
          else if (t20.inputs i).stick_x.natAbs > SUPAGE_INPUT_DEADZONE
            then SPG_PLAYER_STATE_MOVING
          else SPG_PLAYER_STATE_IDLE := by
  have hlen2 : pre.length + post.length = 18 := by
    simp only [List.length_append, List.length_cons] at hlen
    omega
  have hmod : (supage.players i).no_act_frames < UNSIGNED_MOD := by rw [hn]; decide
  have hrel : ∀ ts : List Tick, ts.length < 20 →
      (run_ticks ts supage).players i
        = { supage.players i with no_act_frames := 20 - ts.length } := by
    intro ts hts
    rw [run_ticks_players, run_player_release _ _ hs (by simp [hn]; exact hts) hmod]
    simp [hn]
  have hpre := hrel pre (by omega)
  have h19 := hrel (pre ++ t :: post) (by omega)
  rw [hlen] at h19
  refine ⟨hpre, ?_, ?_, ?_, ?_⟩
  · have hc := iteration_release_continue t.deltatime (t.inputs i)
      { supage.players i with no_act_frames := 20 - pre.length } hs
      (by show 1 < 20 - pre.length; omega)
      (by show 20 - pre.length < UNSIGNED_MOD; unfold UNSIGNED_MOD; omega)
    rw [fixedloop_ended, hpre, hc]
    simp
  · have hl : (pre ++ [t]).length = pre.length + 1 := by simp
    have := hrel (pre ++ [t]) (by omega)
    rw [hl] at this
    exact this
  · rw [fixedloop_ended, iteration_ended, h19]
    have hsk : skipped { supage.players i with no_act_frames := 20 - 19 } = false := by
      have hd : unsigned_dec 1 = 0 := by decide
      simp [skipped, release_countdown, hs, hd]
    simp only [hsk, true_and]
    exact ⟨fun h => h.2, fun h => ⟨hh, h⟩⟩
  · rw [run_ticks_players, List.map_append, run_player_append, ← run_ticks_players, h19]
    simp only [List.map_cons, List.map_nil, run_player, List.foldl_cons, List.foldl_nil]
    exact iteration_release_last _ _ _ hh hs rfl

/-- Witness of C2 (amended): 7 ticks, then the observed tick, then 11 ticks, all with
start and B held and the stick deflected, then a 20th tick with start pressed, B released
and the stick at 40; the player ends in Moving and the round-end signal is issued. -/
theorem C2_release_ends_after_20_ticks_witness :
    (run_ticks (List.replicate 7 (tick_of true true 40))
        (ctx_of (human_player SPG_PLAYER_STATE_PULL_RELEASE 20 0 0))).players 2
        = { (ctx_of (human_player SPG_PLAYER_STATE_PULL_RELEASE 20 0 0)).players 2 with
            no_act_frames := 20 - (List.replicate 7 (tick_of true true 40)).length }
      ∧ 2 ∉ (supage_fixedloop_playing (tick_of true true (-60)).deltatime
          (tick_of true true (-60)).inputs
          (run_ticks (List.replicate 7 (tick_of true true 40))
            (ctx_of (human_player SPG_PLAYER_STATE_PULL_RELEASE 20 0 0)))).2
      ∧ (run_ticks (List.replicate 7 (tick_of true true 40) ++ [tick_of true true (-60)])
        (ctx_of (human_player SPG_PLAYER_STATE_PULL_RELEASE 20 0 0))).players 2
        = { (ctx_of (human_player SPG_PLAYER_STATE_PULL_RELEASE 20 0 0)).players 2 with
            no_act_frames := 20 - ((List.replicate 7 (tick_of true true 40)).length + 1) }
      ∧ 2 ∈ (supage_fixedloop_playing (tick_of true false 40).deltatime
          (tick_of true false 40).inputs
          (run_ticks (List.replicate 7 (tick_of true true 40)
              ++ tick_of true true (-60) :: List.replicate 11 (tick_of true true 40))
            (ctx_of (human_player SPG_PLAYER_STATE_PULL_RELEASE 20 0 0)))).2
      ∧ ((run_ticks ((List.replicate 7 (tick_of true true 40)
              ++ tick_of true true (-60) :: List.replicate 11 (tick_of true true 40))
            ++ [tick_of true false 40])
          (ctx_of (human_player SPG_PLAYER_STATE_PULL_RELEASE 20 0 0))).players 2).state
        = SPG_PLAYER_STATE_MOVING :=
  have h := C2_release_ends_after_20_ticks
    (ctx_of (human_player SPG_PLAYER_STATE_PULL_RELEASE 20 0 0)) 2
    (List.replicate 7 (tick_of true true 40)) (tick_of true true (-60))
    (List.replicate 11 (tick_of true true 40)) (tick_of true false 40) rfl rfl rfl
    (by simp)
  ⟨h.1, h.2.1, h.2.2.1, h.2.2.2.1.2 rfl, h.2.2.2.2⟩

/-- C3 fails as stated: a player in Release with `no_act_frames = 20`, `points = 1` and
`points_display = 0` is skipped by the tick, so after `|1 - 0| = 1` call its displayed
points are still 0. -/
theorem C3_counterexample :
    counter_dist ((ctx_of (human_player SPG_PLAYER_STATE_PULL_RELEASE 20 1 0)).players 0).points
        ((ctx_of (human_player SPG_PLAYER_STATE_PULL_RELEASE 20 1 0)).players 0).points_display
        = [tick_of false false 0].length
      ∧ ((run_ticks [tick_of false false 0]
          (ctx_of (human_player SPG_PLAYER_STATE_PULL_RELEASE 20 1 0))).players 0).points = 1
      ∧ ((run_ticks [tick_of false false 0]
          (ctx_of (human_player SPG_PLAYER_STATE_PULL_RELEASE 20 1 0))).players 0).points_display
        = 0 := by
  refine ⟨rfl, ?_, ?_⟩ <;>
    simp [run_ticks, fixedloop_players, ctx_of, tick_of, human_player, zero_player,
      player_iteration, release_countdown, unsigned_dec, UNSIGNED_MOD]

/-- C3 (amended): for every player and every `n = |points - points_display|` consecutive
calls of `supage_fixedloop_playing`, none of which skips the player in its Release no-act
window, `points_display` equals `points` after the calls (and `points` is unchanged). -/
theorem C3_points_display_converges (supage : supage_ctx_t) (i : Fin 4) (ticks : List Tick)
    (hp : (supage.players i).points < UNSIGNED_MOD)
    (hd : (supage.players i).points_display < UNSIGNED_MOD)
    (hlen : ticks.length
      = counter_dist (supage.players i).points (supage.players i).points_display)
    (hns : ∀ k, k < ticks.length →
      skipped ((run_ticks (ticks.take k) supage).players i) = false) :
    ((run_ticks ticks supage).players i).points_display = (supage.players i).points
      ∧ ((run_ticks ticks supage).players i).points = (supage.players i).points := by
  rw [run_ticks_players]
  apply run_player_points_display _ _ hp hd
  · simpa using hlen
  · intro k hk
    have := hns k (by simpa using hk)
    rwa [run_ticks_players, List.map_take] at this

/-- Witness of C3 (amended): an idle player with `points = 3`, `points_display = 0` and
three ticks. -/
theorem C3_points_display_converges_witness :
    ((run_ticks (List.replicate 3 (tick_of false false 0))
        (ctx_of (human_player SPG_PLAYER_STATE_IDLE 0 3 0))).players 1).points_display
        = ((ctx_of (human_player SPG_PLAYER_STATE_IDLE 0 3 0)).players 1).points
      ∧ ((run_ticks (List.replicate 3 (tick_of false false 0))
        (ctx_of (human_player SPG_PLAYER_STATE_IDLE 0 3 0))).players 1).points
        = ((ctx_of (human_player SPG_PLAYER_STATE_IDLE 0 3 0)).players 1).points :=
  C3_points_display_converges (ctx_of (human_player SPG_PLAYER_STATE_IDLE 0 3 0)) 1
    (List.replicate 3 (tick_of false false 0)) (by decide) (by decide) (by decide)
    (by decide)

/-- C4: for every player and every tick, the distance `|points_display - points|` after
the tick is at most the distance before it, and if `points_display = points` before the
tick then `points_display = points` after it. -/
theorem C4_points_display_distance (supage : supage_ctx_t) (i : Fin 4) (t : Tick)
    (hp : (supage.players i).points < UNSIGNED_MOD)
    (hd : (supage.players i).points_display < UNSIGNED_MOD) :
    counter_dist ((supage_fixedloop_playing t.deltatime t.inputs supage).1.players i).points
        ((supage_fixedloop_playing t.deltatime t.inputs supage).1.players i).points_display
        ≤ counter_dist (supage.players i).points (supage.players i).points_display
      ∧ ((supage.players i).points_display = (supage.players i).points →
          ((supage_fixedloop_playing t.deltatime t.inputs supage).1.players i).points_display
            = ((supage_fixedloop_playing t.deltatime t.inputs supage).1.players i).points) := by
  rw [fixedloop_players]
  cases h : skipped (supage.players i) with
  | true =>
    rw [iteration_points, iteration_points_display_skipped _ _ _ h]
    exact ⟨le_refl _, id⟩
  | false =>
    obtain ⟨e1, _, e3⟩ :=
      iteration_counter_dist_not_skipped t.deltatime (t.inputs i) _ h hp hd
    refine ⟨by rw [e3]; omega, fun heq => ?_⟩
    unfold counter_dist at e3
    omega

/-- Witness of C4: a moving player whose displayed points already equal its points. -/
theorem C4_points_display_distance_witness :
    counter_dist
        ((supage_fixedloop_playing (tick_of false false 0).deltatime (tick_of false false 0).inputs
          (ctx_of (human_player SPG_PLAYER_STATE_MOVING 0 2 2))).1.players 3).points
        ((supage_fixedloop_playing (tick_of false false 0).deltatime (tick_of false false 0).inputs
          (ctx_of (human_player SPG_PLAYER_STATE_MOVING 0 2 2))).1.players 3).points_display
        ≤ counter_dist ((ctx_of (human_player SPG_PLAYER_STATE_MOVING 0 2 2)).players 3).points
          ((ctx_of (human_player SPG_PLAYER_STATE_MOVING 0 2 2)).players 3).points_display
      ∧ ((supage_fixedloop_playing (tick_of false false 0).deltatime
            (tick_of false false 0).inputs
            (ctx_of (human_player SPG_PLAYER_STATE_MOVING 0 2 2))).1.players 3).points_display
          = ((supage_fixedloop_playing (tick_of false false 0).deltatime
            (tick_of false false 0).inputs
            (ctx_of (human_player SPG_PLAYER_STATE_MOVING 0 2 2))).1.players 3).points :=
  ⟨(C4_points_display_distance (ctx_of (human_player SPG_PLAYER_STATE_MOVING 0 2 2)) 3
      (tick_of false false 0) (by decide) (by decide)).1,
    (C4_points_display_distance (ctx_of (human_player SPG_PLAYER_STATE_MOVING 0 2 2)) 3
      (tick_of false false 0) (by decide) (by decide)).2 rfl⟩

/-- C5: a human player in Idle stays in Idle with unchanged velocity after every tick of a
sequence of ticks on each of which B is not held and `|stick_x| ≤ 5`. -/
theorem C5_idle_stable (supage : supage_ctx_t) (i : Fin 4) (ticks : List Tick) (k : Nat)
    (hh : (supage.players i).is_human = true)
    (hs : (supage.players i).state = SPG_PLAYER_STATE_IDLE)
    (hin : ∀ t ∈ ticks, (t.inputs i).btn.b = false
      ∧ (t.inputs i).stick_x.natAbs ≤ SUPAGE_INPUT_DEADZONE) :
    ((run_ticks (ticks.take k) supage).players i).state = SPG_PLAYER_STATE_IDLE
      ∧ ((run_ticks (ticks.take k) supage).players i).velocity_x
        = (supage.players i).velocity_x
      ∧ ((run_ticks (ticks.take k) supage).players i).velocity_y
        = (supage.players i).velocity_y := by
  rw [run_ticks_players]
  refine (run_player_idle_stable _ _ hh hs ?_).2
  intro u hu
  obtain ⟨t, ht, rfl⟩ := List.mem_map.1 hu
  exact hin t (List.mem_of_mem_take ht)

/-- Witness of C5: five ticks with the stick at -5 and start pressed, observed after the
third. -/
theorem C5_idle_stable_witness :
    ((run_ticks ((List.replicate 5 (tick_of true false (-5))).take 3)
        (ctx_of (human_player SPG_PLAYER_STATE_IDLE 0 0 0))).players 0).state
        = SPG_PLAYER_STATE_IDLE
      ∧ ((run_ticks ((List.replicate 5 (tick_of true false (-5))).take 3)
        (ctx_of (human_player SPG_PLAYER_STATE_IDLE 0 0 0))).players 0).velocity_x
        = ((ctx_of (human_player SPG_PLAYER_STATE_IDLE 0 0 0)).players 0).velocity_x
      ∧ ((run_ticks ((List.replicate 5 (tick_of true false (-5))).take 3)
        (ctx_of (human_player SPG_PLAYER_STATE_IDLE 0 0 0))).players 0).velocity_y
        = ((ctx_of (human_player SPG_PLAYER_STATE_IDLE 0 0 0)).players 0).velocity_y :=
  C5_idle_stable (ctx_of (human_player SPG_PLAYER_STATE_IDLE 0 0 0)) 0
    (List.replicate 5 (tick_of true false (-5))) 3 rfl rfl
    (by
      intro t ht
      rw [List.eq_of_mem_replicate ht]
      decide)

/-- C6: a human player in Idle ends a tick with B held in ChargeStart
(`SPG_PLAYER_STATE_PULL_START`), whatever the stick; a following tick with B not held ends
in Idle with both velocity components as before the two ticks. The position has advanced
by the unchanged velocity times the two time steps, so a player at rest has not moved. -/
theorem C6_tap_returns_to_idle (supage : supage_ctx_t) (i : Fin 4) (t1 t2 : Tick)
    (hh : (supage.players i).is_human = true)
    (hs : (supage.players i).state = SPG_PLAYER_STATE_IDLE)
    (hb1 : (t1.inputs i).btn.b = true)
    (hb2 : (t2.inputs i).btn.b = false) :
    ((run_ticks [t1] supage).players i).state = SPG_PLAYER_STATE_PULL_START
      ∧ ((run_ticks [t1, t2] supage).players i).state = SPG_PLAYER_STATE_IDLE
      ∧ ((run_ticks [t1, t2] supage).players i).velocity_x = (supage.players i).velocity_x
      ∧ ((run_ticks [t1, t2] supage).players i).velocity_y = (supage.players i).velocity_y
      ∧ ((run_ticks [t1, t2] supage).players i).x
        = (supage.players i).x + (supage.players i).velocity_x * t1.deltatime
          + (supage.players i).velocity_x * t2.deltatime
      ∧ ((run_ticks [t1, t2] supage).players i).y
        = (supage.players i).y + (supage.players i).velocity_y * t1.deltatime
          + (supage.players i).velocity_y * t2.deltatime
      ∧ ((supage.players i).velocity_x = 0 → (supage.players i).velocity_y = 0 →
          ((run_ticks [t1, t2] supage).players i).x = (supage.players i).x
          ∧ ((run_ticks [t1, t2] supage).players i).y = (supage.players i).y) := by
  have h1 : player_iteration t1.deltatime (t1.inputs i) (supage.players i)
      = (update_points_display (integrate_position t1.deltatime
          { supage.players i with state := SPG_PLAYER_STATE_PULL_START }),
        (t1.inputs i).btn.start) := by
    rw [iteration_not_release _ _ _ (by rw [hs]; decide)]
    simp [handle_inputs, hh, hs, hb1]
  have h2 : ∀ q : supage_player_t, q.is_human = true →
      q.state = SPG_PLAYER_STATE_PULL_START →
      player_iteration t2.deltatime (t2.inputs i) q
        = (update_points_display (integrate_position t2.deltatime
            { q with state := SPG_PLAYER_STATE_IDLE }), (t2.inputs i).btn.start) := by
    intro q hq hqs
    rw [iteration_not_release _ _ _ (by rw [hqs]; decide)]
    simp [handle_inputs, hq, hqs, hb2]
  simp only [run_ticks_players, List.map_cons, List.map_nil, run_player, List.foldl_cons,
    List.foldl_nil, h1]
  rw [h2 _ (by simp [hh]) (by simp)]
  simp only [update_points_display_state, update_points_display_velocity_x,
    update_points_display_velocity_y, update_points_display_x, update_points_display_y,
    integrate_position_state, integrate_position_velocity_x, integrate_position_velocity_y,
    integrate_position_x, integrate_position_y, true_and]
  intro hx hy
  simp [hx, hy]

/-- Witness of C6: a player at rest at the origin, B held for one tick with the stick at
60, then released. -/
theorem C6_tap_returns_to_idle_witness :
    ((run_ticks [tick_of false true 60]
        (ctx_of (human_player SPG_PLAYER_STATE_IDLE 0 0 0))).players 0).state
        = SPG_PLAYER_STATE_PULL_START
      ∧ ((run_ticks [tick_of false true 60, tick_of false false 0]
        (ctx_of (human_player SPG_PLAYER_STATE_IDLE 0 0 0))).players 0).state
        = SPG_PLAYER_STATE_IDLE
      ∧ ((run_ticks [tick_of false true 60, tick_of false false 0]
        (ctx_of (human_player SPG_PLAYER_STATE_IDLE 0 0 0))).players 0).velocity_x = 0
      ∧ ((run_ticks [tick_of false true 60, tick_of false false 0]
        (ctx_of (human_player SPG_PLAYER_STATE_IDLE 0 0 0))).players 0).velocity_y = 0
      ∧ ((run_ticks [tick_of false true 60, tick_of false false 0]
        (ctx_of (human_player SPG_PLAYER_STATE_IDLE 0 0 0))).players 0).x = 0
      ∧ ((run_ticks [tick_of false true 60, tick_of false false 0]
        (ctx_of (human_player SPG_PLAYER_STATE_IDLE 0 0 0))).players 0).y = 0 :=
  have h := C6_tap_returns_to_idle (ctx_of (human_player SPG_PLAYER_STATE_IDLE 0 0 0)) 0
    (tick_of false true 60) (tick_of false false 0) rfl rfl rfl rfl
  ⟨h.1, h.2.1, h.2.2.1, h.2.2.2.1, (h.2.2.2.2.2.2 rfl rfl).1, (h.2.2.2.2.2.2 rfl rfl).2⟩

/-- C7 fails as stated: an idle human player at rest with `stick_x = 40` and B not held
ends the tick in Moving with `velocity_x = 0`, not `40 × 0.05 = 2`. -/
theorem C7_counterexample :
    ((ctx_of (human_player SPG_PLAYER_STATE_IDLE 0 0 0)).players 0).is_human = true
      ∧ ((ctx_of (human_player SPG_PLAYER_STATE_IDLE 0 0 0)).players 0).state
        = SPG_PLAYER_STATE_IDLE
      ∧ ((tick_of false false 40).inputs 0).btn.b = false
      ∧ ((tick_of false false 40).inputs 0).stick_x.natAbs > SUPAGE_INPUT_DEADZONE
      ∧ ((supage_fixedloop_playing (tick_of false false 40).deltatime
          (tick_of false false 40).inputs
          (ctx_of (human_player SPG_PLAYER_STATE_IDLE 0 0 0))).1.players 0).state
        = SPG_PLAYER_STATE_MOVING
      ∧ ((supage_fixedloop_playing (tick_of false false 40).deltatime
          (tick_of false false 40).inputs
          (ctx_of (human_player SPG_PLAYER_STATE_IDLE 0 0 0))).1.players 0).velocity_x = 0
      ∧ ((supage_fixedloop_playing (tick_of false false 40).deltatime
          (tick_of false false 40).inputs
          (ctx_of (human_player SPG_PLAYER_STATE_IDLE 0 0 0))).1.players 0).velocity_x
        ≠ (((tick_of false false 40).inputs 0).stick_x : ℚ) * 0.05 := by
  obtain ⟨_, e2, e3, _⟩ := iteration_idle_to_moving (tick_of false false 40).deltatime
    ((tick_of false false 40).inputs 0) (human_player SPG_PLAYER_STATE_IDLE 0 0 0)
    rfl rfl rfl (by decide)
  have hp : (ctx_of (human_player SPG_PLAYER_STATE_IDLE 0 0 0)).players 0
      = human_player SPG_PLAYER_STATE_IDLE 0 0 0 := rfl
  have hv : (human_player SPG_PLAYER_STATE_IDLE 0 0 0).velocity_x = 0 := rfl
  refine ⟨rfl, rfl, rfl, by decide, ?_, ?_, ?_⟩
  · rw [fixedloop_players, hp]; exact e2
  · rw [fixedloop_players, hp, e3, hv]
  · rw [fixedloop_players, hp, e3, hv]
    norm_num [tick_of]

/-- C7 (amended): a human player in Idle, on a tick with B not held and `|stick_x| > 5`,
ends that tick in Moving with `velocity_x` unchanged; a following tick with B not held
ends in Moving with `velocity_x` equal to the single-precision product `stick_x * 0.05f`
for that tick's stick value. -/
theorem C7_idle_to_moving (supage : supage_ctx_t) (i : Fin 4) (t1 t2 : Tick)
    (hh : (supage.players i).is_human = true)
    (hs : (supage.players i).state = SPG_PLAYER_STATE_IDLE)
    (hb1 : (t1.inputs i).btn.b = false)
    (hx1 : (t1.inputs i).stick_x.natAbs > SUPAGE_INPUT_DEADZONE)
    (hb2 : (t2.inputs i).btn.b = false) :
    ((run_ticks [t1] supage).players i).state = SPG_PLAYER_STATE_MOVING
      ∧ ((run_ticks [t1] supage).players i).velocity_x = (supage.players i).velocity_x
      ∧ ((run_ticks [t1, t2] supage).players i).state = SPG_PLAYER_STATE_MOVING
      ∧ ((run_ticks [t1, t2] supage).players i).velocity_x
        = float_mul_0_05 (t2.inputs i).stick_x := by
  obtain ⟨e1, e2, e3, _⟩ := iteration_idle_to_moving t1.deltatime (t1.inputs i)
    (supage.players i) hh hs hb1 hx1
  obtain ⟨f1, f2⟩ := iteration_moving t2.deltatime (t2.inputs i) _ e1 e2 hb2
  simp only [run_ticks_players, List.map_cons, List.map_nil, run_player, List.foldl_cons,
    List.foldl_nil]
  exact ⟨e2, e3, f1, f2⟩

/-- Witness of C7 (amended): the stick at 40 on two consecutive ticks gives Moving with
velocity 0 after the first and velocity 2 after the second. -/
theorem C7_idle_to_moving_witness :
    ((run_ticks [tick_of false false 40]
        (ctx_of (human_player SPG_PLAYER_STATE_IDLE 0 0 0))).players 0).state
        = SPG_PLAYER_STATE_MOVING
      ∧ ((run_ticks [tick_of false false 40]
        (ctx_of (human_player SPG_PLAYER_STATE_IDLE 0 0 0))).players 0).velocity_x = 0
      ∧ ((run_ticks [tick_of false false 40, tick_of false false 40]
        (ctx_of (human_player SPG_PLAYER_STATE_IDLE 0 0 0))).players 0).state
        = SPG_PLAYER_STATE_MOVING
      ∧ ((run_ticks [tick_of false false 40, tick_of false false 40]
        (ctx_of (human_player SPG_PLAYER_STATE_IDLE 0 0 0))).players 0).velocity_x = 2 :=
  have h := C7_idle_to_moving (ctx_of (human_player SPG_PLAYER_STATE_IDLE 0 0 0)) 0
    (tick_of false false 40) (tick_of false false 40) rfl rfl rfl (by decide) rfl
  ⟨h.1, h.2.1, h.2.2.1, h.2.2.2.trans float_mul_0_05_forty⟩

/-- C8 fails as stated: a moving human player with `stick_x = 1` and B not held ends the
tick with `velocity_x = 13421773 / 2 ^ 28`, the binary32 number `0.05f`, which is not
`1 × 0.05`. -/
theorem C8_counterexample :
    ((ctx_of (human_player SPG_PLAYER_STATE_MOVING 0 0 0)).players 0).is_human = true
      ∧ ((ctx_of (human_player SPG_PLAYER_STATE_MOVING 0 0 0)).players 0).state
        = SPG_PLAYER_STATE_MOVING
      ∧ ((tick_of false false 1).inputs 0).btn.b = false
      ∧ ((supage_fixedloop_playing (tick_of false false 1).deltatime
          (tick_of false false 1).inputs
          (ctx_of (human_player SPG_PLAYER_STATE_MOVING 0 0 0))).1.players 0).velocity_x
        = 13421773 / 268435456
      ∧ ((supage_fixedloop_playing (tick_of false false 1).deltatime
          (tick_of false false 1).inputs
          (ctx_of (human_player SPG_PLAYER_STATE_MOVING 0 0 0))).1.players 0).velocity_x
        ≠ (((tick_of false false 1).inputs 0).stick_x : ℚ) * 0.05 := by
  obtain ⟨_, e2⟩ := iteration_moving (tick_of false false 1).deltatime
    ((tick_of false false 1).inputs 0) (human_player SPG_PLAYER_STATE_MOVING 0 0 0)
    rfl rfl rfl
  have hp : (ctx_of (human_player SPG_PLAYER_STATE_MOVING 0 0 0)).players 0
      = human_player SPG_PLAYER_STATE_MOVING 0 0 0 := rfl
  have hst : ((tick_of false false 1).inputs 0).stick_x = 1 := rfl
  rw [hst, float_mul_0_05_one] at e2
  refine ⟨rfl, rfl, rfl, ?_, ?_⟩
  · rw [fixedloop_players, hp]; exact e2
  · rw [fixedloop_players, hp, e2, hst]
    norm_num

/-- C8 (amended): a human player in Moving, on a tick with B not held, ends the tick in
Moving with `velocity_x` equal to the single-precision product `stick_x * 0.05f`, that
is `stick_x × 13421773 / 2 ^ 28` rounded to binary32, for every stick value, with no
deadzone and whatever the previous velocity. With `stick_x = 0` the velocity is 0, and
for an `int8_t` stick the velocity is `stick_x × 0.05` exactly when the stick is a
multiple of 5. -/
theorem C8_moving_velocity (supage : supage_ctx_t) (i : Fin 4) (t : Tick)
    (hh : (supage.players i).is_human = true)
    (hs : (supage.players i).state = SPG_PLAYER_STATE_MOVING)
    (hb : (t.inputs i).btn.b = false) :
    ((supage_fixedloop_playing t.deltatime t.inputs supage).1.players i).state
        = SPG_PLAYER_STATE_MOVING
      ∧ ((supage_fixedloop_playing t.deltatime t.inputs supage).1.players i).velocity_x
        = float_mul_0_05 (t.inputs i).stick_x
      ∧ ((t.inputs i).stick_x = 0 →
        ((supage_fixedloop_playing t.deltatime t.inputs supage).1.players i).velocity_x
          = 0)
      ∧ (-128 ≤ (t.inputs i).stick_x → (t.inputs i).stick_x ≤ 127 →
        (((supage_fixedloop_playing t.deltatime t.inputs supage).1.players i).velocity_x
            = ((t.inputs i).stick_x : ℚ) * 0.05
          ↔ 5 ∣ (t.inputs i).stick_x)) := by
  obtain ⟨e1, e2⟩ := iteration_moving t.deltatime (t.inputs i) (supage.players i) hh hs hb
  rw [fixedloop_players]
  refine ⟨e1, e2, fun h0 => ?_, fun h1 h2 => ?_⟩
  · rw [e2, h0, float_mul_0_05_zero]
  · rw [e2]
    exact float_mul_0_05_exact_iff _ h1 h2

/-- Witness of C8 (amended): a moving player with velocity 3 whose stick is back at the
centre has velocity 0 at the end of the tick. -/
theorem C8_moving_velocity_witness :
    ((supage_fixedloop_playing (tick_of false false 0).deltatime (tick_of false false 0).inputs
        (ctx_of { human_player SPG_PLAYER_STATE_MOVING 0 0 0 with velocity_x := 3 })).1.players
        0).state = SPG_PLAYER_STATE_MOVING
      ∧ ((supage_fixedloop_playing (tick_of false false 0).deltatime
          (tick_of false false 0).inputs
          (ctx_of { human_player SPG_PLAYER_STATE_MOVING 0 0 0 with velocity_x := 3 })).1.players
          0).velocity_x = 0 :=
  have h := C8_moving_velocity
    (ctx_of { human_player SPG_PLAYER_STATE_MOVING 0 0 0 with velocity_x := 3 }) 0
    (tick_of false false 0) rfl rfl rfl
  ⟨h.1, h.2.2.1 rfl⟩

/-- C9: for every tick with time step `deltatime` and every player that the tick does not
skip in its Release no-act window, the position after the tick is the position before it
plus `deltatime` times the velocity the player has after the tick. -/
theorem C9_position_integration (supage : supage_ctx_t) (i : Fin 4) (t : Tick)
    (h : skipped (supage.players i) = false) :
    ((supage_fixedloop_playing t.deltatime t.inputs supage).1.players i).x
        = (supage.players i).x
          + ((supage_fixedloop_playing t.deltatime t.inputs supage).1.players i).velocity_x
            * t.deltatime
      ∧ ((supage_fixedloop_playing t.deltatime t.inputs supage).1.players i).y
        = (supage.players i).y
          + ((supage_fixedloop_playing t.deltatime t.inputs supage).1.players i).velocity_y
            * t.deltatime := by
  rw [fixedloop_players]
  exact iteration_position t.deltatime (t.inputs i) (supage.players i) h

/-- Witness of C9: a moving player with the stick at 40. -/
theorem C9_position_integration_witness :
    ((supage_fixedloop_playing (tick_of false false 40).deltatime
        (tick_of false false 40).inputs
        (ctx_of (human_player SPG_PLAYER_STATE_MOVING 0 0 0))).1.players 0).x
        = ((ctx_of (human_player SPG_PLAYER_STATE_MOVING 0 0 0)).players 0).x
          + ((supage_fixedloop_playing (tick_of false false 40).deltatime
              (tick_of false false 40).inputs
              (ctx_of (human_player SPG_PLAYER_STATE_MOVING 0 0 0))).1.players 0).velocity_x
            * (tick_of false false 40).deltatime
      ∧ ((supage_fixedloop_playing (tick_of false false 40).deltatime
        (tick_of false false 40).inputs
        (ctx_of (human_player SPG_PLAYER_STATE_MOVING 0 0 0))).1.players 0).y
        = ((ctx_of (human_player SPG_PLAYER_STATE_MOVING 0 0 0)).players 0).y
          + ((supage_fixedloop_playing (tick_of false false 40).deltatime
              (tick_of false false 40).inputs
              (ctx_of (human_player SPG_PLAYER_STATE_MOVING 0 0 0))).1.players 0).velocity_y
            * (tick_of false false 40).deltatime :=
  C9_position_integration (ctx_of (human_player SPG_PLAYER_STATE_MOVING 0 0 0)) 0
    (tick_of false false 40) (by decide)

/-- C10: for a player in Release with `no_act_frames > 1` at the start of a tick, the
tick only decreases `no_act_frames` by 1: every other field (position, velocity, state,
displayed points, ...) is unchanged, for every input and time step, and the iteration of
that slot does not call `minigame_end`. -/
theorem C10_no_act_window_tick (supage : supage_ctx_t) (i : Fin 4) (t : Tick)
    (hs : (supage.players i).state = SPG_PLAYER_STATE_PULL_RELEASE)
    (h1 : 1 < (supage.players i).no_act_frames)
    (hn : (supage.players i).no_act_frames < UNSIGNED_MOD) :
    (supage_fixedloop_playing t.deltatime t.inputs supage).1.players i
        = { supage.players i with no_act_frames := (supage.players i).no_act_frames - 1 }
      ∧ i ∉ (supage_fixedloop_playing t.deltatime t.inputs supage).2 := by
  have h := iteration_release_continue t.deltatime (t.inputs i) (supage.players i) hs h1 hn
  rw [fixedloop_players, fixedloop_ended, h]
  exact ⟨rfl, by simp⟩

/-- Witness of C10: slot 1 in Release with 7 frames left, start and B held and the stick
deflected. -/
theorem C10_no_act_window_tick_witness :
    (supage_fixedloop_playing (tick_of true true 40).deltatime (tick_of true true 40).inputs
        (ctx_of (human_player SPG_PLAYER_STATE_PULL_RELEASE 7 4 1))).1.players 1
        = { (ctx_of (human_player SPG_PLAYER_STATE_PULL_RELEASE 7 4 1)).players 1 with
            no_act_frames
              := ((ctx_of (human_player SPG_PLAYER_STATE_PULL_RELEASE 7 4 1)).players
                  1).no_act_frames - 1 }
      ∧ 1 ∉ (supage_fixedloop_playing (tick_of true true 40).deltatime
          (tick_of true true 40).inputs
          (ctx_of (human_player SPG_PLAYER_STATE_PULL_RELEASE 7 4 1))).2 :=
  C10_no_act_window_tick (ctx_of (human_player SPG_PLAYER_STATE_PULL_RELEASE 7 4 1)) 1
    (tick_of true true 40) rfl (by decide) (by decide)

/-- C11: in every state reached from `minigame_init` by any number of `minigame_fixedloop`
calls with any inputs, the state of each of the four players is one of Idle, ChargeStart,
ChargeActive, Release and Moving, never `SPG_PLAYER_STATE_INVALID` nor
`SPG_PLAYER_STATE_SIZE`. -/
theorem C11_player_state_defined (colors : Fin 4 → color_t) (playercount : Nat)
    (ticks : List Tick) (i : Fin 4) :
    ((run_fixedloop ticks (minigame_init colors playercount)).players i).state
        = SPG_PLAYER_STATE_IDLE
      ∨ ((run_fixedloop ticks (minigame_init colors playercount)).players i).state
        = SPG_PLAYER_STATE_PULL_START
      ∨ ((run_fixedloop ticks (minigame_init colors playercount)).players i).state
        = SPG_PLAYER_STATE_PULL_ACTIVE
      ∨ ((run_fixedloop ticks (minigame_init colors playercount)).players i).state
        = SPG_PLAYER_STATE_PULL_RELEASE
      ∨ ((run_fixedloop ticks (minigame_init colors playercount)).players i).state
        = SPG_PLAYER_STATE_MOVING := by
  rw [run_fixedloop_playing _ _ rfl, run_ticks_players]
  have h0 : ((minigame_init colors playercount).players i).state = SPG_PLAYER_STATE_IDLE := by
    rw [minigame_init_players]
  obtain ⟨e1, e2⟩ := run_player_state_defined
    (ticks.map (fun t => (t.deltatime, t.inputs i)))
    ((minigame_init colors playercount).players i) (by rw [h0]; decide) (by rw [h0]; decide)
  revert e1 e2
  cases (run_player (ticks.map (fun t => (t.deltatime, t.inputs i)))
    ((minigame_init colors playercount).players i)).state <;> simp

/-- C12: after `minigame_init` with participant count `playercount`, every slot `i` is in
Idle at the origin with zero velocity, zero points and displayed points, the `i`-th
player colour, and is human exactly when `i < playercount`. -/
theorem C12_minigame_init (colors : Fin 4 → color_t) (playercount : Nat) (i : Fin 4) :
    ((minigame_init colors playercount).players i).state = SPG_PLAYER_STATE_IDLE
      ∧ ((minigame_init colors playercount).players i).x = 0
      ∧ ((minigame_init colors playercount).players i).y = 0
      ∧ ((minigame_init colors playercount).players i).velocity_x = 0
      ∧ ((minigame_init colors playercount).players i).velocity_y = 0
      ∧ ((minigame_init colors playercount).players i).points = 0
      ∧ ((minigame_init colors playercount).players i).points_display = 0
      ∧ ((minigame_init colors playercount).players i).color = colors i
      ∧ (((minigame_init colors playercount).players i).is_human = true
          ↔ i.val < playercount) := by
  rw [minigame_init_players]
  simp [zero_player]

/-- C13 fails as stated: a human player in Release with `no_act_frames = 20` is skipped by
the tick, so its pressed start button does not issue `minigame_end`. -/
theorem C13_counterexample :
    ((ctx_of (human_player SPG_PLAYER_STATE_PULL_RELEASE 20 0 0)).players 0).is_human = true
      ∧ ((tick_of true false 0).inputs 0).btn.start = true
      ∧ (supage_fixedloop_playing (tick_of true false 0).deltatime (tick_of true false 0).inputs
          (ctx_of (human_player SPG_PLAYER_STATE_PULL_RELEASE 20 0 0))).2 = [] := by
  refine ⟨rfl, rfl, ?_⟩
  simp [supage_fixedloop_playing, loop_body, Function.update, ctx_of, tick_of, human_player,
    zero_player, player_iteration, release_countdown, unsigned_dec, UNSIGNED_MOD]

/-- C13 (amended): in every tick, `minigame_end` is issued exactly when the start button
is pressed on the controller of some human player that the tick does not skip in its
Release no-act window; in particular it is not issued when no human player's start button
is pressed. -/
theorem C13_round_end_signal (supage : supage_ctx_t) (t : Tick) :
    ((supage_fixedloop_playing t.deltatime t.inputs supage).2 ≠ []
        ↔ ∃ i, (supage.players i).is_human = true ∧ skipped (supage.players i) = false
            ∧ (t.inputs i).btn.start = true)
      ∧ ((∀ i, (supage.players i).is_human = true → (t.inputs i).btn.start = false) →
          (supage_fixedloop_playing t.deltatime t.inputs supage).2 = []) := by
  have key : (supage_fixedloop_playing t.deltatime t.inputs supage).2 ≠ []
      ↔ ∃ i, (supage.players i).is_human = true ∧ skipped (supage.players i) = false
          ∧ (t.inputs i).btn.start = true := by
    constructor
    · intro h
      obtain ⟨i, hi⟩ := List.exists_mem_of_ne_nil _ h
      exact ⟨i, (iteration_ended _ _ _).1 ((fixedloop_ended _ _ _ i).1 hi)⟩
    · rintro ⟨i, hi⟩
      exact List.ne_nil_of_mem ((fixedloop_ended _ _ _ i).2 ((iteration_ended _ _ _).2 hi))
  refine ⟨key, fun hno => ?_⟩
  by_contra hne
  obtain ⟨i, hh, _, hst⟩ := key.1 hne
  rw [hno i hh] at hst
  exact Bool.false_ne_true hst

/-- Witness of C13 (amended): an idle human player presses start. -/
theorem C13_round_end_signal_witness :
    (supage_fixedloop_playing (tick_of true false 0).deltatime (tick_of true false 0).inputs
        (ctx_of (human_player SPG_PLAYER_STATE_IDLE 0 0 0))).2 ≠ [] :=
  (C13_round_end_signal (ctx_of (human_player SPG_PLAYER_STATE_IDLE 0 0 0))
    (tick_of true false 0)).1.2 ⟨0, rfl, rfl, rfl⟩

/-- C14: for a player that is not human and not in Release, a tick only integrates the
position and steps the displayed points: state, velocity and `no_act_frames` are
unchanged and the slot does not issue `minigame_end`, whatever its controller reports. -/
theorem C14_non_human_inert (supage : supage_ctx_t) (i : Fin 4) (t : Tick)
    (hh : (supage.players i).is_human = false)
    (hs : (supage.players i).state ≠ SPG_PLAYER_STATE_PULL_RELEASE) :
    (supage_fixedloop_playing t.deltatime t.inputs supage).1.players i
        = update_points_display (integrate_position t.deltatime (supage.players i))
      ∧ ((supage_fixedloop_playing t.deltatime t.inputs supage).1.players i).state
        = (supage.players i).state
      ∧ ((supage_fixedloop_playing t.deltatime t.inputs supage).1.players i).velocity_x
        = (supage.players i).velocity_x
      ∧ ((supage_fixedloop_playing t.deltatime t.inputs supage).1.players i).velocity_y
        = (supage.players i).velocity_y
      ∧ ((supage_fixedloop_playing t.deltatime t.inputs supage).1.players i).no_act_frames
        = (supage.players i).no_act_frames
      ∧ i ∉ (supage_fixedloop_playing t.deltatime t.inputs supage).2 := by
  have h := iteration_not_release t.deltatime (t.inputs i) (supage.players i) hs
  rw [handle_inputs_not_human _ _ hh] at h
  rw [fixedloop_players, fixedloop_ended, h]
  simp

/-- Witness of C14: slot 2 holds a moving player that is not human; start and B are held
and the stick is deflected. -/
theorem C14_non_human_inert_witness :
    (supage_fixedloop_playing (tick_of true true 40).deltatime (tick_of true true 40).inputs
        (ctx_of (ai_player SPG_PLAYER_STATE_MOVING 0))).1.players 2
        = update_points_display (integrate_position (tick_of true true 40).deltatime
            ((ctx_of (ai_player SPG_PLAYER_STATE_MOVING 0)).players 2))
      ∧ ((supage_fixedloop_playing (tick_of true true 40).deltatime
          (tick_of true true 40).inputs
          (ctx_of (ai_player SPG_PLAYER_STATE_MOVING 0))).1.players 2).state
        = ((ctx_of (ai_player SPG_PLAYER_STATE_MOVING 0)).players 2).state
      ∧ ((supage_fixedloop_playing (tick_of true true 40).deltatime
          (tick_of true true 40).inputs
          (ctx_of (ai_player SPG_PLAYER_STATE_MOVING 0))).1.players 2).velocity_x
        = ((ctx_of (ai_player SPG_PLAYER_STATE_MOVING 0)).players 2).velocity_x
      ∧ ((supage_fixedloop_playing (tick_of true true 40).deltatime
          (tick_of true true 40).inputs
          (ctx_of (ai_player SPG_PLAYER_STATE_MOVING 0))).1.players 2).velocity_y
        = ((ctx_of (ai_player SPG_PLAYER_STATE_MOVING 0)).players 2).velocity_y
      ∧ ((supage_fixedloop_playing (tick_of true true 40).deltatime
          (tick_of true true 40).inputs
          (ctx_of (ai_player SPG_PLAYER_STATE_MOVING 0))).1.players 2).no_act_frames
        = ((ctx_of (ai_player SPG_PLAYER_STATE_MOVING 0)).players 2).no_act_frames
      ∧ 2 ∉ (supage_fixedloop_playing (tick_of true true 40).deltatime
          (tick_of true true 40).inputs (ctx_of (ai_player SPG_PLAYER_STATE_MOVING 0))).2 :=
  C14_non_human_inert (ctx_of (ai_player SPG_PLAYER_STATE_MOVING 0)) 2 (tick_of true true 40)
    rfl (by decide)

/-- C15: for a human player in ChargeStart, ChargeActive or Moving, a tick with B held
leaves state, velocity and `no_act_frames` as they were, for every stick value. -/
theorem C15_charge_held_no_transition (supage : supage_ctx_t) (i : Fin 4) (t : Tick)
    (hh : (supage.players i).is_human = true)
    (hs : (supage.players i).state = SPG_PLAYER_STATE_PULL_START
      ∨ (supage.players i).state = SPG_PLAYER_STATE_PULL_ACTIVE
      ∨ (supage.players i).state = SPG_PLAYER_STATE_MOVING)
    (hb : (t.inputs i).btn.b = true) :
    ((supage_fixedloop_playing t.deltatime t.inputs supage).1.players i).state
        = (supage.players i).state
      ∧ ((supage_fixedloop_playing t.deltatime t.inputs supage).1.players i).velocity_x
        = (supage.players i).velocity_x
      ∧ ((supage_fixedloop_playing t.deltatime t.inputs supage).1.players i).velocity_y
        = (supage.players i).velocity_y
      ∧ ((supage_fixedloop_playing t.deltatime t.inputs supage).1.players i).no_act_frames
        = (supage.players i).no_act_frames := by
  have hr : (supage.players i).state ≠ SPG_PLAYER_STATE_PULL_RELEASE := by
    rcases hs with h | h | h <;> rw [h] <;> decide
  have hi : (supage.players i).state ≠ SPG_PLAYER_STATE_IDLE := by
    rcases hs with h | h | h <;> rw [h] <;> decide
  have h := iteration_not_release t.deltatime (t.inputs i) (supage.players i) hr
  rw [handle_inputs_b_held _ _ hh hb hi] at h
  rw [fixedloop_players, h]
  simp

/-- Witness of C15: a moving human player with velocity 3 holds B with the stick at -60. -/
theorem C15_charge_held_no_transition_witness :
    ((supage_fixedloop_playing (tick_of false true (-60)).deltatime
        (tick_of false true (-60)).inputs
        (ctx_of { human_player SPG_PLAYER_STATE_MOVING 0 0 0 with velocity_x := 3 })).1.players
        0).state
        = ((ctx_of { human_player SPG_PLAYER_STATE_MOVING 0 0 0 with velocity_x := 3 }).players
          0).state
      ∧ ((supage_fixedloop_playing (tick_of false true (-60)).deltatime
        (tick_of false true (-60)).inputs
        (ctx_of { human_player SPG_PLAYER_STATE_MOVING 0 0 0 with velocity_x := 3 })).1.players
        0).velocity_x
        = ((ctx_of { human_player SPG_PLAYER_STATE_MOVING 0 0 0 with velocity_x := 3 }).players
          0).velocity_x
      ∧ ((supage_fixedloop_playing (tick_of false true (-60)).deltatime
        (tick_of false true (-60)).inputs
        (ctx_of { human_player SPG_PLAYER_STATE_MOVING 0 0 0 with velocity_x := 3 })).1.players
        0).velocity_y
        = ((ctx_of { human_player SPG_PLAYER_STATE_MOVING 0 0 0 with velocity_x := 3 }).players
          0).velocity_y
      ∧ ((supage_fixedloop_playing (tick_of false true (-60)).deltatime
        (tick_of false true (-60)).inputs
        (ctx_of { human_player SPG_PLAYER_STATE_MOVING 0 0 0 with velocity_x := 3 })).1.players
        0).no_act_frames
        = ((ctx_of { human_player SPG_PLAYER_STATE_MOVING 0 0 0 with velocity_x := 3 }).players
          0).no_act_frames :=
  C15_charge_held_no_transition
    (ctx_of { human_player SPG_PLAYER_STATE_MOVING 0 0 0 with velocity_x := 3 }) 0
    (tick_of false true (-60)) rfl (Or.inr (Or.inr rfl)) rfl

/-- C16: in every state reached from `minigame_init` by any number of
`minigame_fixedloop` calls with any inputs, every player is in Idle, ChargeStart or
Moving, hence neither in ChargeActive (`SPG_PLAYER_STATE_PULL_ACTIVE`) nor in Release
(`SPG_PLAYER_STATE_PULL_RELEASE`). -/
theorem C16_charge_active_unreachable (colors : Fin 4 → color_t) (playercount : Nat)
    (ticks : List Tick) (i : Fin 4) :
    (((run_fixedloop ticks (minigame_init colors playercount)).players i).state
          = SPG_PLAYER_STATE_IDLE
        ∨ ((run_fixedloop ticks (minigame_init colors playercount)).players i).state
          = SPG_PLAYER_STATE_PULL_START
        ∨ ((run_fixedloop ticks (minigame_init colors playercount)).players i).state
          = SPG_PLAYER_STATE_MOVING)
      ∧ ((run_fixedloop ticks (minigame_init colors playercount)).players i).state
        ≠ SPG_PLAYER_STATE_PULL_ACTIVE
      ∧ ((run_fixedloop ticks (minigame_init colors playercount)).players i).state
        ≠ SPG_PLAYER_STATE_PULL_RELEASE := by
  rw [run_fixedloop_playing _ _ rfl, run_ticks_players]
  have h0 : ((minigame_init colors playercount).players i).state = SPG_PLAYER_STATE_IDLE := by
    rw [minigame_init_players]
  have h := run_player_state_closed (ticks.map (fun t => (t.deltatime, t.inputs i)))
    ((minigame_init colors playercount).players i) (Or.inl h0)
  refine ⟨h, ?_, ?_⟩ <;> rcases h with h | h | h <;> rw [h] <;> decide

/-- C17: Moving is absorbing. A player in Moving is in Moving after every tick of every
sequence of ticks, whatever the buttons and the stick. -/
theorem C17_moving_absorbing (supage : supage_ctx_t) (i : Fin 4) (ticks : List Tick)
    (k : Nat) (hs : (supage.players i).state = SPG_PLAYER_STATE_MOVING) :
    ((run_ticks (ticks.take k) supage).players i).state = SPG_PLAYER_STATE_MOVING := by
  rw [run_ticks_players]
  exact run_player_state_moving _ _ hs

/-- Witness of C17: a moving human player, through a tick with B held, a tick with the
stick at the centre and a tick with start pressed. -/
theorem C17_moving_absorbing_witness :
    ((run_ticks ([tick_of false true 60, tick_of false false 0, tick_of true false 3].take 3)
        (ctx_of (human_player SPG_PLAYER_STATE_MOVING 0 0 0))).players 0).state
      = SPG_PLAYER_STATE_MOVING :=
  C17_moving_absorbing (ctx_of (human_player SPG_PLAYER_STATE_MOVING 0 0 0)) 0
    [tick_of false true 60, tick_of false false 0, tick_of true false 3] 3 rfl

/-- C18: let a player satisfy `state = Release → 1 ≤ no_act_frames ≤ 20` at the start of
a tick. If it is in Release, the unsigned decrement does not wrap (the decremented value
plus 1 is the old value) and after the tick the player is either still in Release with
`1 ≤ no_act_frames ≤ 19` or no longer in Release. In every case the predicate
`state = Release → 1 ≤ no_act_frames ≤ 20` holds again after the tick, for every input. -/
theorem C18_no_act_frames_bounds (supage : supage_ctx_t) (i : Fin 4) (t : Tick)
    (hinv : (supage.players i).state = SPG_PLAYER_STATE_PULL_RELEASE →
      1 ≤ (supage.players i).no_act_frames ∧ (supage.players i).no_act_frames ≤ 20) :
    ((supage.players i).state = SPG_PLAYER_STATE_PULL_RELEASE →
        unsigned_dec (supage.players i).no_act_frames + 1 = (supage.players i).no_act_frames
        ∧ ((((supage_fixedloop_playing t.deltatime t.inputs supage).1.players i).state
              = SPG_PLAYER_STATE_PULL_RELEASE
            ∧ 1 ≤ ((supage_fixedloop_playing t.deltatime t.inputs supage).1.players
                i).no_act_frames
            ∧ ((supage_fixedloop_playing t.deltatime t.inputs supage).1.players
                i).no_act_frames ≤ 19)
          ∨ ((supage_fixedloop_playing t.deltatime t.inputs supage).1.players i).state
              ≠ SPG_PLAYER_STATE_PULL_RELEASE))
      ∧ (((supage_fixedloop_playing t.deltatime t.inputs supage).1.players i).state
          = SPG_PLAYER_STATE_PULL_RELEASE →
        1 ≤ ((supage_fixedloop_playing t.deltatime t.inputs supage).1.players i).no_act_frames
        ∧ ((supage_fixedloop_playing t.deltatime t.inputs supage).1.players i).no_act_frames
          ≤ 20) := by
  rw [fixedloop_players]
  exact iteration_release_window t.deltatime (t.inputs i) (supage.players i) hinv

/-- Witness of C18: a player in Release with 20 frames left; the decrement gives 19 and
the player is still in Release. -/
theorem C18_no_act_frames_bounds_witness :
    unsigned_dec ((ctx_of (human_player SPG_PLAYER_STATE_PULL_RELEASE 20 0 0)).players
        0).no_act_frames + 1
        = ((ctx_of (human_player SPG_PLAYER_STATE_PULL_RELEASE 20 0 0)).players 0).no_act_frames
      ∧ ((((supage_fixedloop_playing (tick_of true true 40).deltatime
            (tick_of true true 40).inputs
            (ctx_of (human_player SPG_PLAYER_STATE_PULL_RELEASE 20 0 0))).1.players 0).state
            = SPG_PLAYER_STATE_PULL_RELEASE
          ∧ 1 ≤ ((supage_fixedloop_playing (tick_of true true 40).deltatime
              (tick_of true true 40).inputs
              (ctx_of (human_player SPG_PLAYER_STATE_PULL_RELEASE 20 0 0))).1.players
              0).no_act_frames
          ∧ ((supage_fixedloop_playing (tick_of true true 40).deltatime
              (tick_of true true 40).inputs
              (ctx_of (human_player SPG_PLAYER_STATE_PULL_RELEASE 20 0 0))).1.players
              0).no_act_frames ≤ 19)
        ∨ ((supage_fixedloop_playing (tick_of true true 40).deltatime
            (tick_of true true 40).inputs
            (ctx_of (human_player SPG_PLAYER_STATE_PULL_RELEASE 20 0 0))).1.players 0).state
            ≠ SPG_PLAYER_STATE_PULL_RELEASE) :=
  (C18_no_act_frames_bounds (ctx_of (human_player SPG_PLAYER_STATE_PULL_RELEASE 20 0 0)) 0
    (tick_of true true 40) (fun _ => ⟨by decide, by decide⟩)).1 rfl

/-- C19: no tick writes `velocity_y`; for every player, input and time step the value
after the tick is the value before it. Consequently, in every state reached from
`minigame_init` by `minigame_fixedloop` calls, each player has `velocity_y = 0` and
`y = 0`. -/
theorem C19_velocity_y_never_written (supage : supage_ctx_t) (i : Fin 4) (t : Tick)
    (colors : Fin 4 → color_t) (playercount : Nat) (ticks : List Tick) (j : Fin 4) :
    ((supage_fixedloop_playing t.deltatime t.inputs supage).1.players i).velocity_y
        = (supage.players i).velocity_y
      ∧ ((run_fixedloop ticks (minigame_init colors playercount)).players j).velocity_y = 0
      ∧ ((run_fixedloop ticks (minigame_init colors playercount)).players j).y = 0 := by
  have hv : ((minigame_init colors playercount).players j).velocity_y = 0 := by
    rw [minigame_init_players]; rfl
  have hy : ((minigame_init colors playercount).players j).y = 0 := by
    rw [minigame_init_players]; rfl
  obtain ⟨e1, e2⟩ := run_player_vertical (ticks.map (fun t => (t.deltatime, t.inputs j)))
    ((minigame_init colors playercount).players j)
  rw [fixedloop_players, iteration_velocity_y, run_fixedloop_playing _ _ rfl,
    run_ticks_players, e1, e2 hv, hv, hy]
  exact ⟨rfl, rfl, rfl⟩

end Supage
